import Mathlib

/-!
Shallow embedding of the validation-engine core of the `mysql-data-quality`
repository (`src/data_quality/validators/`): the Rule/Result data contracts,
the `ValidationEngine` fan-out driver, and the four validators
(Completeness, Duplicates, Integrity, Patterns).

Modelling conventions:
* pandas cells are `Cell` (`Cell.null` models `None`/`NaN`); a DataFrame is a
  column-name list plus row-major cells (`DFrame`).
* a raised Python exception is `Except.error` carrying the message;
* Python floats are modelled as exact rationals (`Rat`); every claim checked
  here is an exact identity, not a rounding property;
* the human-readable `message` string and the `timestamp` of a Result are not
  modelled (no claim mentions them); `details` keeps the count/flag keys and
  omits the sampled-value lists (`duplicate_values`, `orphaned_values`,
  `invalid_values`, `sample_duplicates`), which no claim mentions;
* Python's regex engine (`re.match`) is abstracted as an explicit
  `regexMatch : String → String → Bool` parameter of the Patterns validator;
  the CNPJ/CPF checksum validators are modelled in full.
-/

namespace DataQuality

/-- Severity levels (`ValidationSeverity` in `validators/base.py`). -/
inductive Severity where
  | INFO
  | WARNING
  | ERROR
  | CRITICAL
deriving DecidableEq, Repr

/-- One cell of the dataset: a missing value (`None`/`NaN`) or a concrete
string or integer value.  All pandas nulls are identified (pandas `nunique`
and `dropna` treat them alike). -/
inductive Cell where
  | null
  | str (s : String)
  | int (n : Int)
deriving DecidableEq, Repr

/-- Structured values appearing in a Result's `details` mapping. -/
inductive DVal where
  | str (s : String)
  | int (n : Int)
  | rat (q : Rat)
  | bool (b : Bool)
  | strList (l : List String)
deriving DecidableEq, Repr

/-- Embedding of `ValidationResult` (`validators/base.py`), without the unmodelled
`message` and `timestamp` fields. -/
structure VResult where
  rule_name : String
  table_name : String
  column_name : Option String
  severity : Severity
  passed : Bool
  details : List (String × DVal)
  affected_rows : Nat
  total_rows : Nat
deriving DecidableEq, Repr

/-- Derived `ValidationResult.pass_rate`: `100.0` when `total_rows == 0`,
otherwise `(total_rows - affected_rows) / total_rows * 100.0`. -/
def VResult.passRate (r : VResult) : Rat :=
  if r.total_rows = 0 then 100
  else ((r.total_rows : Rat) - (r.affected_rows : Rat)) / (r.total_rows : Rat) * 100

/-- Embedding of `ValidationRule`, parametrised by the (validator-specific) well-typed
projection of its dynamically-typed `parameters` dict.  `__post_init__`
guarantees the dict itself is never `None`. -/
structure MRule (π : Type) where
  name : String
  severity : Severity
  enabled : Bool
  parameters : π
deriving DecidableEq, Repr

/-- A loaded dataset: named columns and row-major cells. -/
structure DFrame where
  cols : List String
  rows : List (List Cell)
deriving DecidableEq, Repr

/-- Value of column `c` in row `r` of `df` (`Cell.null` when out of range;
callers guard column existence as the Python code does). -/
def DFrame.cellAt (df : DFrame) (r : List Cell) (c : String) : Cell :=
  match df.cols.findIdx? (fun c' => c' = c) with
  | some i => r.getD i Cell.null
  | none => Cell.null

/-- The pandas `data[column_name]` column extraction as a list of cells. -/
def DFrame.getCol (df : DFrame) (c : String) : List Cell :=
  match df.cols.findIdx? (fun c' => c' = c) with
  | some i => df.rows.map (fun r => r.getD i Cell.null)
  | none => []

/-! ## CNPJ / CPF checksum validators (`validators/patterns.py`) -/

/-- Digit values of a string after deleting every non-digit character
(`re.sub(r"[^\d]", "", s)` followed by per-character conversion). -/
def digitsOf (s : String) : List Nat :=
  (s.data.filter Char.isDigit).map (fun c => c.toNat - 48)

/-- The string with every non-digit character removed (mask stripping). -/
def stripNonDigits (s : String) : String :=
  ⟨s.data.filter Char.isDigit⟩

/-- Model of `calculate_digit`: weighted digit sum, modulo-11 rule
(`0` when the remainder is below `2`, else `11 - remainder`).
`zip` truncates to the shorter list, as in Python. -/
def calcCheckDigit (ds : List Nat) (weights : List Nat) : Nat :=
  let total := ((ds.zip weights).map (fun p => p.1 * p.2)).sum
  let r := total % 11
  if r < 2 then 0 else 11 - r

/-- First CNPJ weight sequence. -/
def cnpjWeights1 : List Nat := [5, 4, 3, 2, 9, 8, 7, 6, 5, 4, 3, 2]

/-- Second CNPJ weight sequence (the first prefixed with 6). -/
def cnpjWeights2 : List Nat := [6, 5, 4, 3, 2, 9, 8, 7, 6, 5, 4, 3, 2]

/-- Embedding of `PatternsValidator._validate_cnpj`. -/
def validateCnpj (s : String) : Bool :=
  let ds := digitsOf s
  if ds.length ≠ 14 then false
  else if ds = List.replicate 14 (ds.headD 0) then false
  else if ds.getD 12 0 ≠ calcCheckDigit (ds.take 12) cnpjWeights1 then false
  else ds.getD 13 0 = calcCheckDigit (ds.take 13) cnpjWeights2

/-- First CPF weight sequence, `range(10, 1, -1)`. -/
def cpfWeights1 : List Nat := [10, 9, 8, 7, 6, 5, 4, 3, 2]

/-- Second CPF weight sequence, `range(11, 1, -1)`. -/
def cpfWeights2 : List Nat := [11, 10, 9, 8, 7, 6, 5, 4, 3, 2]

/-- Embedding of `PatternsValidator._validate_cpf`. -/
def validateCpf (s : String) : Bool :=
  let ds := digitsOf s
  if ds.length ≠ 11 then false
  else if ds = List.replicate 11 (ds.headD 0) then false
  else if ds.getD 9 0 ≠ calcCheckDigit (ds.take 9) cpfWeights1 then false
  else ds.getD 10 0 = calcCheckDigit (ds.take 10) cpfWeights2

theorem digitsOf_stripNonDigits (s : String) : digitsOf (stripNonDigits s) = digitsOf s := by
  simp [digitsOf, stripNonDigits, List.filter_filter]

/-- C3: the CNPJ checksum validator accepts a string iff, after stripping
non-digits, it has exactly 14 digits, not all identical, and both modulo-11
check digits match the last two digits; `"11.444.777/0001-61"` is valid,
`"00.000.000/0000-00"` is invalid, CPF `"123.456.789-09"` is valid,
`"111.111.111-11"` is invalid, and stripping mask characters never changes
either verdict. -/
theorem cnpj_cpf_checksum_spec :
    (∀ s : String,
      validateCnpj s = true ↔
        (digitsOf s).length = 14 ∧
        ¬ (∀ d ∈ digitsOf s, d = (digitsOf s).headD 0) ∧
        (digitsOf s).getD 12 0 = calcCheckDigit ((digitsOf s).take 12) cnpjWeights1 ∧
        (digitsOf s).getD 13 0 = calcCheckDigit ((digitsOf s).take 13) cnpjWeights2) ∧
    validateCnpj "11.444.777/0001-61" = true ∧
    validateCnpj "00.000.000/0000-00" = false ∧
    validateCpf "123.456.789-09" = true ∧
    validateCpf "111.111.111-11" = false ∧
    (∀ s : String,
      validateCnpj (stripNonDigits s) = validateCnpj s ∧
      validateCpf (stripNonDigits s) = validateCpf s) := by
  refine ⟨?_, by decide, by decide, by decide, by decide, ?_⟩
  · intro s
    have hrep_iff : (digitsOf s).length = 14 →
        (digitsOf s = List.replicate 14 ((digitsOf s).headD 0) ↔
          ∀ d ∈ digitsOf s, d = (digitsOf s).headD 0) := by
      intro h14
      rw [List.eq_replicate_iff]
      exact ⟨fun h => h.2, fun h => ⟨h14, h⟩⟩
    unfold validateCnpj
    by_cases h14 : (digitsOf s).length = 14
    · rw [if_neg (not_not_intro h14)]
      by_cases hrep : digitsOf s = List.replicate 14 ((digitsOf s).headD 0)
      · rw [if_pos hrep]
        constructor
        · intro h
          exact absurd h (by decide)
        · intro h
          exact absurd ((hrep_iff h14).mp hrep) h.2.1
      · rw [if_neg hrep]
        by_cases hd1 : (digitsOf s).getD 12 0 = calcCheckDigit ((digitsOf s).take 12) cnpjWeights1
        · rw [if_neg (not_not_intro hd1)]
          rw [decide_eq_true_eq]
          constructor
          · intro h
            exact ⟨h14, fun hall => hrep ((hrep_iff h14).mpr hall), hd1, h⟩
          · intro h
            exact h.2.2.2
        · rw [if_pos hd1]
          constructor
          · intro h
            exact absurd h (by decide)
          · intro h
            exact absurd h.2.2.1 hd1
    · rw [if_pos h14]
      constructor
      · intro h
        exact absurd h (by decide)
      · intro h
        exact absurd h.1 h14
  · intro s
    constructor
    · unfold validateCnpj
      rw [digitsOf_stripNonDigits]
    · unfold validateCpf
      rw [digitsOf_stripNonDigits]

/-! ## ValidationEngine (`validators/base.py`) -/

/-- A registered validator as the engine sees it: `validate_table` maps the
dataset and table name to either a result list or a raised exception
(`Except.error` carrying the message).  The engine never looks inside a
validator, so the behaviour is abstracted as a function. -/
structure MValidator where
  name : String
  validate_table : DFrame → String → Except String (List VResult)

/-- Embedding of `ValidationEngine.register_validator`: the registry `self._validators`
is an insertion-ordered name-keyed mapping (Python dict semantics:
re-registration overwrites in place and keeps the original position). -/
def registerValidator (reg : List (String × MValidator)) (v : MValidator) :
    List (String × MValidator) :=
  if reg.any (fun p => p.1 = v.name) then
    reg.map (fun p => if p.1 = v.name then (p.1, v) else p)
  else reg ++ [(v.name, v)]

/-- Dict lookup `self._validators[name]`, used after the membership test
`name in self._validators` in the selection comprehension. -/
def lookupValidator (reg : List (String × MValidator)) (n : String) :
    Option MValidator :=
  (reg.find? (fun p => p.1 = n)).map (fun p => p.2)

/-- Validator selection in `ValidationEngine.validate_data`: Python's
`if validator_names` is falsy for both `None` and the empty list, in which
case every registered validator runs in registration order; otherwise the
named, currently-registered validators run in the order given. -/
def selectedValidators (reg : List (String × MValidator))
    (names : Option (List String)) : List MValidator :=
  match names with
  | none => reg.map (fun p => p.2)
  | some [] => reg.map (fun p => p.2)
  | some ns => ns.filterMap (lookupValidator reg)

/-- The synthetic CRITICAL result built when a validator raises. -/
def validatorErrorResult (vname tname msg : String) : VResult :=
  { rule_name := vname ++ "_error", table_name := tname, column_name := none,
    severity := Severity.CRITICAL, passed := false,
    details := [("error", DVal.str msg)], affected_rows := 0, total_rows := 0 }

/-- One iteration of the `for validator in validators_to_run` loop of
`validate_data`: the validator's results on success, one synthetic error
result when it raises. -/
def runValidator (data : DFrame) (t : String) (v : MValidator) : List VResult :=
  match v.validate_table data t with
  | Except.ok rs => rs
  | Except.error e => [validatorErrorResult v.name t e]

/-- Embedding of `ValidationEngine.validate_data`: the concatenation of the per-validator
contributions of the selected validators. -/
def validateData (reg : List (String × MValidator)) (data : DFrame) (t : String)
    (names : Option (List String)) : List VResult :=
  ((selectedValidators reg names).map (runValidator data t)).flatten

/-- C1: `validate_data` returns the concatenation of per-validator result
lists; with `validator_names` omitted or empty every registered validator
runs in registration order, otherwise exactly the named currently-registered
validators run in the order given with unknown names silently skipped
(`filterMap` over the registry lookup); a validator whose `validate_table`
raises contributes exactly one synthetic Result named `<name>_error` with
severity CRITICAL, `passed=false`, `column_name=null`,
`details={"error": msg}`, `affected_rows=0`, `total_rows=0`, while every
validator that succeeds contributes its full result list. -/
theorem engine_validate_data_spec (reg : List (String × MValidator))
    (data : DFrame) (t : String) :
    validateData reg data t none =
      ((reg.map (fun p => p.2)).map (runValidator data t)).flatten ∧
    validateData reg data t (some []) =
      ((reg.map (fun p => p.2)).map (runValidator data t)).flatten ∧
    (∀ ns : List String, ns ≠ [] →
      validateData reg data t (some ns) =
        ((ns.filterMap (lookupValidator reg)).map (runValidator data t)).flatten) ∧
    (∀ v : MValidator, ∀ rs, v.validate_table data t = Except.ok rs →
      runValidator data t v = rs) ∧
    (∀ v : MValidator, ∀ e, v.validate_table data t = Except.error e →
      runValidator data t v =
        [{ rule_name := v.name ++ "_error", table_name := t, column_name := none,
           severity := Severity.CRITICAL, passed := false,
           details := [("error", DVal.str e)], affected_rows := 0,
           total_rows := 0 }]) := by
  refine ⟨rfl, rfl, ?_, ?_, ?_⟩
  · intro ns hns
    cases ns with
    | nil => exact absurd rfl hns
    | cons a as => rfl
  · intro v rs h
    unfold runValidator
    rw [h]
  · intro v e h
    unfold runValidator
    rw [h]
    rfl

/-- Concrete succeeding validator used to instantiate the engine theorem. -/
def c1OkVal : MValidator :=
  ⟨"completeness",
   fun _ t => Except.ok
     [{ rule_name := "default_completeness", table_name := t,
        column_name := some "age", severity := Severity.WARNING, passed := true,
        details := [], affected_rows := 0, total_rows := 3 }]⟩

/-- Concrete raising validator used to instantiate the engine theorem. -/
def c1FailVal : MValidator :=
  ⟨"integrity", fun _ _ => Except.error "boom"⟩

/-- Concrete two-validator registry. -/
def c1Reg : List (String × MValidator) :=
  [("completeness", c1OkVal), ("integrity", c1FailVal)]

/-- Concrete dataset for the engine instantiation. -/
def c1Df : DFrame := ⟨["age"], [[Cell.int 1], [Cell.int 2], [Cell.null]]⟩

theorem engine_validate_data_spec_witness :
    (["integrity", "zzz", "completeness"] : List String) ≠ [] ∧
    validateData c1Reg c1Df "t" (some ["integrity", "zzz", "completeness"]) =
      (((["integrity", "zzz", "completeness"] : List String).filterMap
          (lookupValidator c1Reg)).map (runValidator c1Df "t")).flatten ∧
    runValidator c1Df "t" c1FailVal =
      [{ rule_name := c1FailVal.name ++ "_error", table_name := "t",
         column_name := none, severity := Severity.CRITICAL, passed := false,
         details := [("error", DVal.str "boom")], affected_rows := 0,
         total_rows := 0 }] :=
  ⟨by decide,
   (engine_validate_data_spec c1Reg c1Df "t").2.2.1
     ["integrity", "zzz", "completeness"] (by decide),
   (engine_validate_data_spec c1Reg c1Df "t").2.2.2.2 c1FailVal "boom" rfl⟩

/-! ## CompletenessValidator (`validators/completeness.py`) -/

/-- Well-typed view of a completeness rule's parameters:
`parameters.get("threshold", 1.0)`; `none` models an absent key, whose
default is `1.0`. -/
structure CompParams where
  threshold : Option Rat
deriving DecidableEq, Repr

/-- Number of nulls in a column (`data.isnull().sum()`). -/
def nullCount (data : List Cell) : Nat :=
  data.countP (fun c => c = Cell.null)

/-- The ratio `completeness_ratio = non_null_count / total_rows if total_rows > 0
else 1.0` (with `non_null_count = total_rows - null_count`). -/
def completenessFrac (data : List Cell) : Rat :=
  if data.length > 0 then
    ((data.length - nullCount data : Nat) : Rat) / (data.length : Rat)
  else 1

/-- The Result built for one enabled completeness rule on one column. -/
def mkCompResult (data : List Cell) (tn cn : String)
    (rule : MRule CompParams) : VResult :=
  let total := data.length
  let nulls := nullCount data
  let threshold := rule.parameters.threshold.getD 1
  let frac := completenessFrac data
  { rule_name := rule.name, table_name := tn, column_name := some cn,
    severity := rule.severity, passed := decide (frac ≥ threshold),
    details :=
      [("null_count", DVal.int nulls),
       ("non_null_count", DVal.int (total - nulls)),
       ("completeness_ratio", DVal.rat frac),
       ("threshold", DVal.rat threshold),
       ("null_percentage",
        DVal.rat (if total > 0 then (nulls : Rat) / (total : Rat) * 100 else 0))],
    affected_rows := nulls, total_rows := total }

/-- The `for rule in rules` loop of `CompletenessValidator.validate_column`:
disabled rules are skipped, and the loop raises at the first enabled rule
whose threshold is outside `[0.0, 1.0]` (Fail Fast). -/
def completenessRulesLoop (data : List Cell) (tn cn : String) :
    List (MRule CompParams) → Except String (List VResult)
  | [] => Except.ok []
  | rule :: rest =>
    if rule.enabled then
      let threshold := rule.parameters.threshold.getD 1
      if 0 ≤ threshold ∧ threshold ≤ 1 then
        match completenessRulesLoop data tn cn rest with
        | Except.ok rs => Except.ok (mkCompResult data tn cn rule :: rs)
        | Except.error e => Except.error e
      else
        Except.error
          ("Rule '" ++ rule.name ++ "': threshold must be between 0.0 and 1.0")
    else completenessRulesLoop data tn cn rest

/-- Embedding of `CompletenessValidator.validate_column`. -/
def completenessValidateColumn (data : List Cell) (tn cn : String)
    (rules : List (MRule CompParams)) : Except String (List VResult) :=
  completenessRulesLoop data tn cn rules

/-- The `for column_name in data.columns` loop of
`CompletenessValidator.validate_table`. -/
def completenessTableLoop (df : DFrame) (tn : String)
    (rules : List (MRule CompParams)) : List String → Except String (List VResult)
  | [] => Except.ok []
  | c :: cs =>
    match completenessValidateColumn (df.getCol c) tn c rules with
    | Except.error e => Except.error e
    | Except.ok rs =>
      match completenessTableLoop df tn rules cs with
      | Except.error e => Except.error e
      | Except.ok rest => Except.ok (rs ++ rest)

/-- Embedding of `CompletenessValidator.validate_table`: column-level validation applied
to every column in order. -/
def completenessValidateTable (df : DFrame) (tn : String)
    (rules : List (MRule CompParams)) : Except String (List VResult) :=
  completenessTableLoop df tn rules df.cols

theorem nullCount_le_length (data : List Cell) : nullCount data ≤ data.length :=
  List.countP_le_length _

theorem completenessRulesLoop_ok (data : List Cell) (tn cn : String)
    (rules : List (MRule CompParams))
    (h : ∀ rule ∈ rules, rule.enabled = true →
      0 ≤ rule.parameters.threshold.getD 1 ∧ rule.parameters.threshold.getD 1 ≤ 1) :
    completenessRulesLoop data tn cn rules =
      Except.ok ((rules.filter (fun r => r.enabled)).map (mkCompResult data tn cn)) := by
  induction rules with
  | nil => rfl
  | cons rule rest ih =>
    have hrest := ih (fun r hr he => h r (List.mem_cons_of_mem _ hr) he)
    by_cases hen : rule.enabled = true
    · have hth := h rule (List.mem_cons_self rule rest) hen
      unfold completenessRulesLoop
      rw [if_pos hen, if_pos hth, hrest]
      simp [List.filter_cons, hen]
    · unfold completenessRulesLoop
      rw [if_neg hen, hrest]
      simp [List.filter_cons, hen]

theorem completenessRulesLoop_error (data : List Cell) (tn cn : String)
    (rules : List (MRule CompParams)) (rule : MRule CompParams)
    (hmem : rule ∈ rules) (hen : rule.enabled = true)
    (hbad : ¬(0 ≤ rule.parameters.threshold.getD 1 ∧
              rule.parameters.threshold.getD 1 ≤ 1)) :
    ∃ e, completenessRulesLoop data tn cn rules = Except.error e := by
  induction rules with
  | nil => cases hmem
  | cons r rest ih =>
    rcases List.mem_cons.mp hmem with heq | hmem'
    · subst heq
      unfold completenessRulesLoop
      rw [if_pos hen, if_neg hbad]
      exact ⟨_, rfl⟩
    · obtain ⟨e, he⟩ := ih hmem'
      unfold completenessRulesLoop
      by_cases hren : r.enabled = true
      · rw [if_pos hren]
        by_cases hgood : 0 ≤ r.parameters.threshold.getD 1 ∧
            r.parameters.threshold.getD 1 ≤ 1
        · rw [if_pos hgood, he]
          exact ⟨e, rfl⟩
        · rw [if_neg hgood]
          exact ⟨_, rfl⟩
      · rw [if_neg hren]
        exact ⟨e, he⟩

theorem completenessTable_singleton_error (df : DFrame) (tn : String)
    (rule : MRule CompParams) (hen : rule.enabled = true)
    (hbad : ¬(0 ≤ rule.parameters.threshold.getD 1 ∧
              rule.parameters.threshold.getD 1 ≤ 1))
    (hcols : df.cols ≠ []) :
    ∃ e, completenessValidateTable df tn [rule] = Except.error e := by
  cases hc : df.cols with
  | nil => exact absurd hc hcols
  | cons c cs =>
    obtain ⟨e, he⟩ :=
      completenessRulesLoop_error (df.getCol c) tn c [rule] rule
        (List.mem_cons_self rule []) hen hbad
    refine ⟨e, ?_⟩
    unfold completenessValidateTable
    rw [hc]
    simp only [completenessTableLoop, completenessValidateColumn, he]

/-- C5: for every column and every enabled completeness rule with a
threshold in `[0,1]`, the produced Result has `affected_rows` equal to the
column's null count, `total_rows` equal to the column length,
`completeness_ratio = non_null/total` (1 when the column is empty), passes
iff that ratio is at least the threshold, and its derived `pass_rate` equals
`100 * (total - null_count) / total` (100 when `total = 0`); an enabled rule
with a threshold outside `[0,1]` makes `validate_column` — and hence
`validate_table` on a dataset with at least one column — raise. -/
theorem completeness_validate_column_spec (data : List Cell) (tn cn : String)
    (rules : List (MRule CompParams)) :
    ((∀ rule ∈ rules, rule.enabled = true →
        0 ≤ rule.parameters.threshold.getD 1 ∧
        rule.parameters.threshold.getD 1 ≤ 1) →
      completenessValidateColumn data tn cn rules =
        Except.ok ((rules.filter (fun r => r.enabled)).map (mkCompResult data tn cn))) ∧
    (∀ rule : MRule CompParams,
      (mkCompResult data tn cn rule).affected_rows = nullCount data ∧
      (mkCompResult data tn cn rule).total_rows = data.length ∧
      ((mkCompResult data tn cn rule).passed = true ↔
        completenessFrac data ≥ rule.parameters.threshold.getD 1) ∧
      completenessFrac data =
        (if data.length = 0 then 1 else
          ((data.length : Rat) - (nullCount data : Rat)) / (data.length : Rat)) ∧
      (mkCompResult data tn cn rule).passRate =
        (if data.length = 0 then (100 : Rat) else
          100 * (((data.length : Rat) - (nullCount data : Rat)) / (data.length : Rat)))) ∧
    (∀ rule ∈ rules, rule.enabled = true →
      ¬(0 ≤ rule.parameters.threshold.getD 1 ∧
        rule.parameters.threshold.getD 1 ≤ 1) →
      ∃ e, completenessValidateColumn data tn cn rules = Except.error e) ∧
    (∀ (df : DFrame) (rule : MRule CompParams), rule.enabled = true →
      ¬(0 ≤ rule.parameters.threshold.getD 1 ∧
        rule.parameters.threshold.getD 1 ≤ 1) →
      df.cols ≠ [] →
      ∃ e, completenessValidateTable df tn [rule] = Except.error e) := by
  have hfrac : completenessFrac data =
      (if data.length = 0 then 1 else
        ((data.length : Rat) - (nullCount data : Rat)) / (data.length : Rat)) := by
    unfold completenessFrac
    rcases Nat.eq_zero_or_pos data.length with h0 | hpos
    · simp [h0]
    · rw [if_pos hpos, if_neg (Nat.pos_iff_ne_zero.mp hpos),
        Nat.cast_sub (nullCount_le_length data)]
  refine ⟨fun h => completenessRulesLoop_ok data tn cn rules h, ?_, ?_, ?_⟩
  · intro rule
    refine ⟨rfl, rfl, ?_, hfrac, ?_⟩
    · simp [mkCompResult]
    · have ha : (mkCompResult data tn cn rule).affected_rows = nullCount data := rfl
      have ht : (mkCompResult data tn cn rule).total_rows = data.length := rfl
      unfold VResult.passRate
      rw [ha, ht]
      rcases Nat.eq_zero_or_pos data.length with h0 | hpos
      · rw [if_pos h0, if_pos h0]
      · have hne := Nat.pos_iff_ne_zero.mp hpos
        rw [if_neg hne, if_neg hne]
        ring
  · intro rule hmem hen hbad
    exact completenessRulesLoop_error data tn cn rules rule hmem hen hbad
  · intro df rule hen hbad hcols
    exact completenessTable_singleton_error df tn rule hen hbad hcols

/-- Concrete column for the completeness instantiation:
`age = [1, 2, 3, None, 5]`. -/
def c5Data : List Cell :=
  [Cell.int 1, Cell.int 2, Cell.int 3, Cell.null, Cell.int 5]

/-- Concrete completeness rule with an absent `threshold` key (defaulting to
`1.0`, inside the accepted range). -/
def c5Rule : MRule CompParams :=
  { name := "default_completeness", severity := Severity.WARNING,
    enabled := true, parameters := { threshold := none } }

theorem completeness_validate_column_spec_witness :
    (∀ rule ∈ [c5Rule], rule.enabled = true →
      0 ≤ rule.parameters.threshold.getD 1 ∧
      rule.parameters.threshold.getD 1 ≤ 1) ∧
    completenessValidateColumn c5Data "users" "age" [c5Rule] =
      Except.ok (([c5Rule].filter (fun r => r.enabled)).map
        (mkCompResult c5Data "users" "age")) :=
  ⟨by simp [c5Rule],
   (completeness_validate_column_spec c5Data "users" "age" [c5Rule]).1
     (by simp [c5Rule])⟩

/-! ## DuplicatesValidator (`validators/duplicates.py`) -/

/-- Well-typed view of a duplicates rule's parameters; a present `columns`
key puts the rule in composite-key mode. -/
structure DupParams where
  max_duplicates : Option Int
  ignore_nulls : Option Bool
  columns : Option (List String)
deriving DecidableEq, Repr

/-- Per-instance configuration of `DuplicatesValidator`: the explicit
column-name overrides and the two pattern lists (environment overrides
replace the built-in defaults entirely when non-empty). -/
structure DupConfig where
  force_unique_columns : List String
  allow_duplicate_columns : List String
  unique_patterns : List String
  skip_patterns : List String
deriving DecidableEq, Repr

/-- Built-in `_skip_patterns` defaults (columns expected to hold
duplicates). -/
def defaultSkipPatterns : List String :=
  ["_id", "_uid", "fk_", "_fk", "foreign_key", "_key", "ref_", "_ref",
   "emp_id", "empresa_id", "cliente_id", "user_id", "usuario_id",
   "categoria_id", "tipo_id", "status_id", "parent_id", "uuid", "guid",
   "_uuid", "_guid", "uid", "endereco", "rua", "avenida", "cidade", "estado",
   "pais", "cep", "nome", "sobrenome", "titulo", "descricao", "observacao",
   "comentario", "telefone", "celular", "email", "cor", "tamanho", "peso",
   "altura", "largura", "marca", "modelo", "versao", "status", "situacao",
   "tipo", "categoria", "classe", "genero", "sexo", "nacionalidade",
   "profissao", "ativo", "inativo", "pendente", "aprovado", "rejeitado"]

/-- Built-in `_unique_patterns` defaults (columns that must be unique). -/
def defaultUniquePatterns : List String :=
  ["cpf", "cnpj", "rg", "passaporte", "documento", "codigo", "numero",
   "serial", "sku", "barcode", "login", "username", "email_pessoal"]

/-- The configuration obtained with no environment variables set and no
explicit `configure_column_uniqueness` calls. -/
def defaultDupConfig : DupConfig :=
  ⟨[], [], defaultUniquePatterns, defaultSkipPatterns⟩

/-- Whether `needle` occurs at the start of `hay` (character-list view). -/
def charListStartsWith : List Char → List Char → Bool
  | _, [] => true
  | [], _ :: _ => false
  | a :: as, b :: bs => a = b && charListStartsWith as bs

/-- Python's substring test `needle in hay`, on character lists. -/
def charListHasSub : List Char → List Char → Bool
  | [], needle => needle.isEmpty
  | hay@(_ :: rest), needle =>
    charListStartsWith hay needle || charListHasSub rest needle

/-- Python's substring test `needle in hay` on strings. -/
def strContainsSub (hay needle : String) : Bool :=
  charListHasSub hay.data needle.data

/-- Model of `str.lower()` (character-wise; the dataset columns here are ASCII). -/
def strLower (s : String) : String :=
  ⟨s.data.map Char.toLower⟩

/-- Embedding of `DuplicatesValidator._should_skip_column_for_duplicates`: explicit
force-unique set, then explicit allow-duplicates set, then the
must-be-unique pattern list, then the duplicates-expected pattern list,
else validate. -/
def shouldSkipColumn (cfg : DupConfig) (columnName : String) : Bool :=
  let columnLower := strLower columnName
  if columnName ∈ cfg.force_unique_columns then false
  else if columnName ∈ cfg.allow_duplicate_columns then true
  else if cfg.unique_patterns.any (fun p => strContainsSub columnLower p) then false
  else if cfg.skip_patterns.any (fun p => strContainsSub columnLower p) then true
  else false

/-- Non-null cells of a column (`data.dropna()`). -/
def dropNulls (data : List Cell) : List Cell :=
  data.filter (fun c => decide (c ≠ Cell.null))

/-- The working column of the single-column duplicate count: nulls dropped
first when `ignore_nulls`, otherwise kept (`nunique(dropna=False)` counts
all nulls as one shared value, which `dedup` on `Cell.null` models). -/
def dupWorking (ignoreNulls : Bool) (data : List Cell) : List Cell :=
  if ignoreNulls then dropNulls data else data

/-- The `unique_count` of the single-column mode. -/
def dupUniqueCount (ignoreNulls : Bool) (data : List Cell) : Nat :=
  (dupWorking ignoreNulls data).dedup.length

/-- The `total_count` of the single-column mode. -/
def dupTotalCount (ignoreNulls : Bool) (data : List Cell) : Nat :=
  (dupWorking ignoreNulls data).length

/-- The count `duplicate_count = total_count - unique_count`. -/
def dupDuplicateCount (ignoreNulls : Bool) (data : List Cell) : Nat :=
  dupTotalCount ignoreNulls data - dupUniqueCount ignoreNulls data

/-- The Result built for one enabled single-column duplicates rule. -/
def mkDupResult (data : List Cell) (tn cn : String)
    (rule : MRule DupParams) : VResult :=
  let maxDup := rule.parameters.max_duplicates.getD 0
  let ignoreNulls := rule.parameters.ignore_nulls.getD true
  let uniqueCount := dupUniqueCount ignoreNulls data
  let dupCount := dupDuplicateCount ignoreNulls data
  { rule_name := rule.name, table_name := tn, column_name := some cn,
    severity := rule.severity, passed := decide ((dupCount : Int) ≤ maxDup),
    details :=
      [("unique_count", DVal.int uniqueCount),
       ("duplicate_count", DVal.int dupCount),
       ("total_rows", DVal.int data.length),
       ("non_null_rows", DVal.int (dropNulls data).length),
       ("max_duplicates", DVal.int maxDup),
       ("ignore_nulls", DVal.bool ignoreNulls)],
    affected_rows := dupCount, total_rows := data.length }

/-- The `for rule in rules` loop of `DuplicatesValidator.validate_column`:
disabled rules and composite-key rules are skipped; a negative
`max_duplicates` raises (Fail Fast). -/
def duplicatesRulesLoop (data : List Cell) (tn cn : String) :
    List (MRule DupParams) → Except String (List VResult)
  | [] => Except.ok []
  | rule :: rest =>
    if rule.enabled = true then
      if rule.parameters.columns.isSome then duplicatesRulesLoop data tn cn rest
      else if rule.parameters.max_duplicates.getD 0 < 0 then
        Except.error ("Rule '" ++ rule.name ++ "': max_duplicates must be >= 0")
      else
        match duplicatesRulesLoop data tn cn rest with
        | Except.ok rs => Except.ok (mkDupResult data tn cn rule :: rs)
        | Except.error e => Except.error e
    else duplicatesRulesLoop data tn cn rest

/-- Embedding of `DuplicatesValidator.validate_column`: empty rule list short-circuits,
then the column-skip heuristic, then the per-rule loop. -/
def duplicatesValidateColumn (cfg : DupConfig) (data : List Cell)
    (tn cn : String) (rules : List (MRule DupParams)) :
    Except String (List VResult) :=
  if rules = [] then Except.ok []
  else if shouldSkipColumn cfg cn then Except.ok []
  else duplicatesRulesLoop data tn cn rules

/-- The composite key of one row: the row's cells at the key columns. -/
def compositeKeyRows (df : DFrame) (columns : List String) :
    List (List Cell) :=
  df.rows.map (fun r => columns.map (df.cellAt r))

/-- A composite key with at least one null component. -/
def keyHasNull (k : List Cell) : Bool :=
  k.any (fun c => decide (c = Cell.null))

/-- The working key rows of composite-key mode: rows with any null among
the key columns are dropped first when `ignore_nulls`. -/
def compositeWorking (ignoreNulls : Bool) (df : DFrame)
    (columns : List String) : List (List Cell) :=
  if ignoreNulls then (compositeKeyRows df columns).filter (fun k => !keyHasNull k)
  else compositeKeyRows df columns

/-- The `unique_combinations` of composite-key mode (`drop_duplicates`). -/
def compUniqueCount (ignoreNulls : Bool) (df : DFrame)
    (columns : List String) : Nat :=
  (compositeWorking ignoreNulls df columns).dedup.length

/-- The `total_combinations` of composite-key mode. -/
def compTotalCount (ignoreNulls : Bool) (df : DFrame)
    (columns : List String) : Nat :=
  (compositeWorking ignoreNulls df columns).length

/-- The count `duplicate_combinations = total_combinations - unique_combinations`. -/
def compDuplicateCount (ignoreNulls : Bool) (df : DFrame)
    (columns : List String) : Nat :=
  compTotalCount ignoreNulls df columns - compUniqueCount ignoreNulls df columns

/-- The Result built for one composite-key duplicates rule
(`column_name=null`; `total_rows` is the full dataset row count). -/
def mkCompositeDupResult (df : DFrame) (tn : String) (rule : MRule DupParams)
    (columns : List String) : VResult :=
  let maxDup := rule.parameters.max_duplicates.getD 0
  let ignoreNulls := rule.parameters.ignore_nulls.getD true
  let uniqueComb := compUniqueCount ignoreNulls df columns
  let dupComb := compDuplicateCount ignoreNulls df columns
  { rule_name := rule.name, table_name := tn, column_name := none,
    severity := rule.severity, passed := decide ((dupComb : Int) ≤ maxDup),
    details :=
      [("unique_combinations", DVal.int uniqueComb),
       ("duplicate_combinations", DVal.int dupComb),
       ("total_combinations", DVal.int (compTotalCount ignoreNulls df columns)),
       ("max_duplicates", DVal.int maxDup),
       ("ignore_nulls", DVal.bool ignoreNulls)],
    affected_rows := dupComb, total_rows := df.rows.length }

/-- Embedding of `DuplicatesValidator._validate_composite_key`: negative
`max_duplicates` raises, then key columns missing from the data raise. -/
def duplicatesValidateComposite (df : DFrame) (tn : String)
    (rule : MRule DupParams) : Except String VResult :=
  match rule.parameters.columns with
  | none =>
    Except.error "composite rule without columns"
  | some columns =>
    if rule.parameters.max_duplicates.getD 0 < 0 then
      Except.error ("Rule '" ++ rule.name ++ "': max_duplicates must be >= 0")
    else if ¬ (∀ c ∈ columns, c ∈ df.cols) then
      Except.error ("Rule '" ++ rule.name ++ "': columns not found in data")
    else Except.ok (mkCompositeDupResult df tn rule columns)

/-- The `for column_name in data.columns` sweep of single-column mode in
`DuplicatesValidator.validate_table`. -/
def duplicatesColumnsSweep (cfg : DupConfig) (df : DFrame) (tn : String)
    (rule : MRule DupParams) : List String → Except String (List VResult)
  | [] => Except.ok []
  | c :: cs =>
    match duplicatesValidateColumn cfg (df.getCol c) tn c [rule] with
    | Except.error e => Except.error e
    | Except.ok rs =>
      match duplicatesColumnsSweep cfg df tn rule cs with
      | Except.error e => Except.error e
      | Except.ok rest => Except.ok (rs ++ rest)

/-- The `for rule in rules` loop of `DuplicatesValidator.validate_table`:
composite-key rules produce one table-level Result, other rules validate
every column individually. -/
def duplicatesTableLoop (cfg : DupConfig) (df : DFrame) (tn : String) :
    List (MRule DupParams) → Except String (List VResult)
  | [] => Except.ok []
  | rule :: rest =>
    if rule.enabled = true then
      if rule.parameters.columns.isSome then
        match duplicatesValidateComposite df tn rule with
        | Except.error e => Except.error e
        | Except.ok r =>
          match duplicatesTableLoop cfg df tn rest with
          | Except.error e => Except.error e
          | Except.ok rs => Except.ok (r :: rs)
      else
        match duplicatesColumnsSweep cfg df tn rule df.cols with
        | Except.error e => Except.error e
        | Except.ok rs =>
          match duplicatesTableLoop cfg df tn rest with
          | Except.error e => Except.error e
          | Except.ok rest' => Except.ok (rs ++ rest')
    else duplicatesTableLoop cfg df tn rest

/-- Embedding of `DuplicatesValidator.validate_table`. -/
def duplicatesValidateTable (cfg : DupConfig) (df : DFrame) (tn : String)
    (rules : List (MRule DupParams)) : Except String (List VResult) :=
  duplicatesTableLoop cfg df tn rules

theorem duplicatesValidateComposite_eq (df : DFrame) (tn : String)
    (rule : MRule DupParams) (columns : List String)
    (hcols : rule.parameters.columns = some columns) :
    duplicatesValidateComposite df tn rule =
      if rule.parameters.max_duplicates.getD 0 < 0 then
        Except.error ("Rule '" ++ rule.name ++ "': max_duplicates must be >= 0")
      else if ¬ (∀ c ∈ columns, c ∈ df.cols) then
        Except.error ("Rule '" ++ rule.name ++ "': columns not found in data")
      else Except.ok (mkCompositeDupResult df tn rule columns) := by
  unfold duplicatesValidateComposite
  rw [hcols]

theorem duplicatesColumn_negMax_error (cfg : DupConfig) (data : List Cell)
    (tn cn : String) (rule : MRule DupParams) (hen : rule.enabled = true)
    (hcols : rule.parameters.columns = none)
    (hmax : rule.parameters.max_duplicates.getD 0 < 0)
    (hskip : shouldSkipColumn cfg cn = false) :
    ∃ e, duplicatesValidateColumn cfg data tn cn [rule] = Except.error e := by
  have hs : rule.parameters.columns.isSome = false := by
    rw [hcols]
    rfl
  unfold duplicatesValidateColumn
  rw [if_neg (List.cons_ne_nil rule []),
    if_neg ((Bool.not_eq_true _).mpr hskip)]
  simp only [duplicatesRulesLoop, if_pos hen, hs, Bool.false_eq_true,
    if_false, if_pos hmax]
  exact ⟨_, rfl⟩

theorem duplicatesComposite_missing_error (df : DFrame) (tn : String)
    (rule : MRule DupParams) (columns : List String)
    (hcols : rule.parameters.columns = some columns)
    (hmiss : ¬ (∀ c ∈ columns, c ∈ df.cols)) :
    ∃ e, duplicatesValidateComposite df tn rule = Except.error e := by
  rw [duplicatesValidateComposite_eq df tn rule columns hcols]
  by_cases hm : rule.parameters.max_duplicates.getD 0 < 0
  · rw [if_pos hm]
    exact ⟨_, rfl⟩
  · rw [if_neg hm, if_pos hmiss]
    exact ⟨_, rfl⟩

theorem duplicatesTable_missing_error (cfg : DupConfig) (df : DFrame)
    (tn : String) (rule : MRule DupParams) (columns : List String)
    (hen : rule.enabled = true)
    (hcols : rule.parameters.columns = some columns)
    (hmiss : ¬ (∀ c ∈ columns, c ∈ df.cols)) :
    ∃ e, duplicatesValidateTable cfg df tn [rule] = Except.error e := by
  have hs : rule.parameters.columns.isSome = true := by
    rw [hcols]
    rfl
  obtain ⟨e, he⟩ := duplicatesComposite_missing_error df tn rule columns hcols hmiss
  refine ⟨e, ?_⟩
  unfold duplicatesValidateTable
  simp only [duplicatesTableLoop, if_pos hen, hs, if_true, he]

/-- C8: in single-column mode a column is skipped — zero Results — exactly
per the priority order: the explicit force-unique set never skips, the
explicit allow-duplicates set always skips, a must-be-unique pattern
substring of the lowercased name never skips, a duplicates-expected pattern
substring skips, and the default is to validate; a skipped column yields
`ok []` from `validate_column`; composite-key rules never consult the
heuristic — the composite Result is produced with no skip-status
hypothesis. -/
theorem duplicates_skip_heuristic_spec (cfg : DupConfig) (cn : String) :
    (shouldSkipColumn cfg cn = true ↔
      cn ∉ cfg.force_unique_columns ∧
      (cn ∈ cfg.allow_duplicate_columns ∨
        (cn ∉ cfg.allow_duplicate_columns ∧
         (∀ p ∈ cfg.unique_patterns, strContainsSub (strLower cn) p = false) ∧
         (∃ p ∈ cfg.skip_patterns, strContainsSub (strLower cn) p = true)))) ∧
    (∀ (data : List Cell) (tn : String) (rules : List (MRule DupParams)),
      shouldSkipColumn cfg cn = true →
      duplicatesValidateColumn cfg data tn cn rules = Except.ok []) ∧
    (∀ (df : DFrame) (tn : String) (rule : MRule DupParams)
        (columns : List String),
      rule.enabled = true →
      rule.parameters.columns = some columns →
      ¬ rule.parameters.max_duplicates.getD 0 < 0 →
      (∀ c ∈ columns, c ∈ df.cols) →
      duplicatesValidateTable cfg df tn [rule] =
        Except.ok [mkCompositeDupResult df tn rule columns]) := by
  refine ⟨?_, ?_, ?_⟩
  · unfold shouldSkipColumn
    by_cases h1 : cn ∈ cfg.force_unique_columns
    · rw [if_pos h1]
      constructor
      · intro h
        exact absurd h (by decide)
      · intro h
        exact absurd h1 h.1
    · rw [if_neg h1]
      by_cases h2 : cn ∈ cfg.allow_duplicate_columns
      · rw [if_pos h2]
        exact ⟨fun _ => ⟨h1, Or.inl h2⟩, fun _ => rfl⟩
      · rw [if_neg h2]
        by_cases h3 :
            cfg.unique_patterns.any (fun p => strContainsSub (strLower cn) p) = true
        · rw [if_pos h3]
          constructor
          · intro h
            exact absurd h (by decide)
          · intro h
            rcases h.2 with hmem | ⟨_, hall, _⟩
            · exact absurd hmem h2
            · obtain ⟨p, hp, hps⟩ := List.any_eq_true.mp h3
              rw [hall p hp] at hps
              exact absurd hps (by decide)
        · rw [if_neg h3]
          have hall : ∀ p ∈ cfg.unique_patterns,
              strContainsSub (strLower cn) p = false := by
            intro p hp
            cases hb : strContainsSub (strLower cn) p
            · rfl
            · exact absurd (List.any_eq_true.mpr ⟨p, hp, hb⟩) h3
          by_cases h4 :
              cfg.skip_patterns.any (fun p => strContainsSub (strLower cn) p) = true
          · rw [if_pos h4]
            obtain ⟨p, hp, hps⟩ := List.any_eq_true.mp h4
            exact ⟨fun _ => ⟨h1, Or.inr ⟨h2, hall, p, hp, hps⟩⟩, fun _ => rfl⟩
          · rw [if_neg h4]
            constructor
            · intro h
              exact absurd h (by decide)
            · intro h
              rcases h.2 with hmem | ⟨_, _, p, hp, hps⟩
              · exact absurd hmem h2
              · exact absurd (List.any_eq_true.mpr ⟨p, hp, hps⟩) h4
  · intro data tn rules hskip
    unfold duplicatesValidateColumn
    by_cases hr : rules = []
    · rw [if_pos hr]
    · rw [if_neg hr, if_pos hskip]
  · intro df tn rule columns hen hcols hmax hsub
    have hs : rule.parameters.columns.isSome = true := by
      rw [hcols]
      rfl
    unfold duplicatesValidateTable
    simp only [duplicatesTableLoop, if_pos hen, hs, if_true]
    rw [duplicatesValidateComposite_eq df tn rule columns hcols]
    rw [if_neg hmax, if_neg (not_not_intro hsub)]

/-- Concrete enabled rule with negative `max_duplicates`. -/
def c4NegRule : MRule DupParams :=
  { name := "invalid_max", severity := Severity.ERROR, enabled := true,
    parameters :=
      { max_duplicates := some (-1), ignore_nulls := some true,
        columns := none } }

/-- Concrete default uniqueness rule (`max_duplicates=0`,
`ignore_nulls=True`). -/
def dupDefaultRule : MRule DupParams :=
  { name := "default_uniqueness", severity := Severity.ERROR, enabled := true,
    parameters :=
      { max_duplicates := some 0, ignore_nulls := some true,
        columns := none } }

theorem duplicates_skip_heuristic_spec_witness :
    shouldSkipColumn defaultDupConfig "cliente_id" = true ∧
    duplicatesValidateColumn defaultDupConfig [Cell.int 1, Cell.int 1] "t"
      "cliente_id" [dupDefaultRule] = Except.ok [] :=
  ⟨by decide,
   (duplicates_skip_heuristic_spec defaultDupConfig "cliente_id").2.1
     [Cell.int 1, Cell.int 1] "t" [dupDefaultRule] (by decide)⟩

/-- C4 counterexample: an enabled single-column rule with
`max_duplicates = -1` does not raise on column `"user_id"` — the column-skip
heuristic (the built-in `_id` pattern) runs first and `validate_column`
returns `ok []`, so `max_duplicates < 0` does not always raise. -/
theorem duplicates_neg_max_counterexample :
    c4NegRule.parameters.max_duplicates.getD 0 < 0 ∧
    c4NegRule.enabled = true ∧
    shouldSkipColumn defaultDupConfig "user_id" = true ∧
    duplicatesValidateColumn defaultDupConfig [Cell.int 1, Cell.int 1] "t"
      "user_id" [c4NegRule] = Except.ok [] :=
  ⟨by decide, rfl, by decide, rfl⟩

/-- C4 (amended): single-column mode satisfies
`unique_count + duplicate_count = total_count` with `total_count` excluding
nulls iff `ignore_nulls`, and the Result passes iff
`duplicate_count ≤ max_duplicates`; composite-key mode satisfies
`unique_combinations + duplicate_combinations = total_combinations` with
rows holding a null key component excluded iff `ignore_nulls`; an enabled
single-column rule with `max_duplicates < 0` raises whenever the column is
not skipped by the heuristic; an enabled composite-key rule whose key
columns are missing from the data always raises. -/
theorem duplicates_counts_spec :
    (∀ (ig : Bool) (data : List Cell),
      dupUniqueCount ig data + dupDuplicateCount ig data =
        dupTotalCount ig data ∧
      dupTotalCount true data = (dropNulls data).length ∧
      dupTotalCount false data = data.length) ∧
    (∀ (cfg : DupConfig) (data : List Cell) (tn cn : String)
        (rule : MRule DupParams),
      rule.enabled = true → rule.parameters.columns = none →
      ¬ rule.parameters.max_duplicates.getD 0 < 0 →
      shouldSkipColumn cfg cn = false →
      duplicatesValidateColumn cfg data tn cn [rule] =
        Except.ok [mkDupResult data tn cn rule] ∧
      (mkDupResult data tn cn rule).affected_rows =
        dupDuplicateCount (rule.parameters.ignore_nulls.getD true) data ∧
      ((mkDupResult data tn cn rule).passed = true ↔
        (dupDuplicateCount (rule.parameters.ignore_nulls.getD true) data : Int) ≤
          rule.parameters.max_duplicates.getD 0)) ∧
    (∀ (ig : Bool) (df : DFrame) (columns : List String),
      compUniqueCount ig df columns + compDuplicateCount ig df columns =
        compTotalCount ig df columns ∧
      compTotalCount true df columns =
        ((compositeKeyRows df columns).filter (fun k => !keyHasNull k)).length ∧
      compTotalCount false df columns = (compositeKeyRows df columns).length ∧
      ((mkCompositeDupResult df "t" dupDefaultRule columns).passed = true ↔
        (compDuplicateCount true df columns : Int) ≤ 0)) ∧
    (∀ (cfg : DupConfig) (data : List Cell) (tn cn : String)
        (rule : MRule DupParams),
      rule.enabled = true → rule.parameters.columns = none →
      rule.parameters.max_duplicates.getD 0 < 0 →
      shouldSkipColumn cfg cn = false →
      ∃ e, duplicatesValidateColumn cfg data tn cn [rule] = Except.error e) ∧
    (∀ (df : DFrame) (tn : String) (rule : MRule DupParams)
        (columns : List String),
      rule.parameters.columns = some columns →
      ¬ (∀ c ∈ columns, c ∈ df.cols) →
      ∃ e, duplicatesValidateComposite df tn rule = Except.error e) ∧
    (∀ (cfg : DupConfig) (df : DFrame) (tn : String) (rule : MRule DupParams)
        (columns : List String),
      rule.enabled = true →
      rule.parameters.columns = some columns →
      ¬ (∀ c ∈ columns, c ∈ df.cols) →
      ∃ e, duplicatesValidateTable cfg df tn [rule] = Except.error e) := by
  have hded : ∀ l : List Cell, l.dedup.length ≤ l.length :=
    fun l => (List.dedup_sublist l).length_le
  have hdedk : ∀ l : List (List Cell), l.dedup.length ≤ l.length :=
    fun l => (List.dedup_sublist l).length_le
  refine ⟨?_, ?_, ?_, ?_, ?_, ?_⟩
  · intro ig data
    refine ⟨?_, rfl, rfl⟩
    exact Nat.add_sub_cancel' (hded _)
  · intro cfg data tn cn rule hen hcols hmax hskip
    have hs : rule.parameters.columns.isSome = false := by
      rw [hcols]
      rfl
    refine ⟨?_, rfl, ?_⟩
    · unfold duplicatesValidateColumn
      rw [if_neg (List.cons_ne_nil rule []),
        if_neg ((Bool.not_eq_true _).mpr hskip)]
      simp only [duplicatesRulesLoop, if_pos hen, hs, Bool.false_eq_true,
        if_false, if_neg hmax]
    · simp only [mkDupResult, decide_eq_true_eq]
  · intro ig df columns
    refine ⟨Nat.add_sub_cancel' (hdedk _), rfl, rfl, ?_⟩
    simp only [mkCompositeDupResult, decide_eq_true_eq]
    rfl
  · intro cfg data tn cn rule hen hcols hmax hskip
    exact duplicatesColumn_negMax_error cfg data tn cn rule hen hcols hmax hskip
  · intro df tn rule columns hcols hmiss
    exact duplicatesComposite_missing_error df tn rule columns hcols hmiss
  · intro cfg df tn rule columns hen hcols hmiss
    exact duplicatesTable_missing_error cfg df tn rule columns hen hcols hmiss

theorem duplicates_counts_spec_witness :
    (dupDefaultRule.enabled = true ∧
     dupDefaultRule.parameters.columns = none ∧
     ¬ dupDefaultRule.parameters.max_duplicates.getD 0 < 0 ∧
     shouldSkipColumn defaultDupConfig "cpf" = false) ∧
    duplicatesValidateColumn defaultDupConfig
      [Cell.int 1, Cell.int 1, Cell.int 2, Cell.int 3, Cell.int 4] "t" "cpf"
      [dupDefaultRule] =
      Except.ok [mkDupResult
        [Cell.int 1, Cell.int 1, Cell.int 2, Cell.int 3, Cell.int 4] "t" "cpf"
        dupDefaultRule] :=
  ⟨⟨rfl, rfl, by decide, by decide⟩,
   (duplicates_counts_spec.2.1 defaultDupConfig
     [Cell.int 1, Cell.int 1, Cell.int 2, Cell.int 3, Cell.int 4] "t" "cpf"
     dupDefaultRule rfl rfl (by decide) (by decide)).1⟩

/-! ## PatternsValidator (`validators/patterns.py`) -/

/-- Well-typed view of a patterns rule's parameters. -/
structure PatParams where
  pattern_type : Option String
  allow_nulls : Option Bool
  regex_pattern : Option String
deriving DecidableEq, Repr

/-- Regex of the built-in `cnpj` catalogue entry. -/
def cnpjRegexStr : String :=
  "^\\d\x7b2\x7d\\.?\\d\x7b3\x7d\\.?\\d\x7b3\x7d\\/?\\d\x7b4\x7d-?\\d\x7b2\x7d$"

/-- Regex of the built-in `cpf` catalogue entry. -/
def cpfRegexStr : String :=
  "^\\d\x7b3\x7d\\.?\\d\x7b3\x7d\\.?\\d\x7b3\x7d-?\\d\x7b2\x7d$"

/-- Regex of the built-in `email` catalogue entry. -/
def emailRegexStr : String :=
  "^[a-zA-Z0-9._%+-]+@[a-zA-Z0-9.-]+\\.[a-zA-Z]\x7b2,\x7d$"

/-- Regex of the built-in `phone_br` catalogue entry. -/
def phoneBrRegexStr : String :=
  "^(\\(\\d\x7b2\x7d\\)\\s?)?\\d\x7b4,5\x7d-?\\d\x7b4\x7d$"

/-- Regex of the built-in `cep` catalogue entry. -/
def cepRegexStr : String :=
  "^\\d\x7b5\x7d-?\\d\x7b3\x7d$"

/-- The built-in pattern catalogue `self._patterns`: regex string plus the
optional checksum validator (`cnpj`/`cpf` only). -/
def patternCatalog (pt : String) : Option (String × Option (String → Bool)) :=
  if pt = "cnpj" then some (cnpjRegexStr, some validateCnpj)
  else if pt = "cpf" then some (cpfRegexStr, some validateCpf)
  else if pt = "email" then some (emailRegexStr, none)
  else if pt = "phone_br" then some (phoneBrRegexStr, none)
  else if pt = "cep" then some (cepRegexStr, none)
  else none

/-- Embedding of `PatternsValidator._auto_detect_pattern`: catalogue entry inferred from
substrings of the lowercased column name. -/
def autoDetectPattern (columnName : String) : Option String :=
  let cl := strLower columnName
  if strContainsSub cl "cnpj" then some "cnpj"
  else if strContainsSub cl "cpf" then some "cpf"
  else if strContainsSub cl "email" || strContainsSub cl "mail" then some "email"
  else if strContainsSub cl "phone" || strContainsSub cl "telefone" ||
      strContainsSub cl "fone" then some "phone_br"
  else if strContainsSub cl "cep" then some "cep"
  else none

/-- The null-or-empty test of the per-value loop:
`pd.isna(value) or value == ""`. -/
def isNullOrEmpty (c : Cell) : Bool :=
  decide (c = Cell.null) || decide (c = Cell.str "")

/-- Python `str(value)` for a non-null cell. -/
def cellToStr : Cell → String
  | Cell.null => "None"
  | Cell.str s => s
  | Cell.int n => toString n

/-- An ASCII whitespace character (the values stripped by `str.strip()`
that occur in tabular data). -/
def isSpaceChar (c : Char) : Bool :=
  decide (c = ' ') || decide (c = '\t') || decide (c = '\n') || decide (c = '\r')

/-- Model of `str.strip()`: leading and trailing whitespace removed. -/
def strStrip (s : String) : String :=
  ⟨((s.data.dropWhile isSpaceChar).reverse.dropWhile isSpaceChar).reverse⟩

/-- The three counters of the per-value loop of `_validate_pattern`. -/
structure PatCounts where
  valid_count : Nat
  invalid_count : Nat
  null_count : Nat
deriving DecidableEq, Repr

/-- The per-value evaluation loop of `_validate_pattern`, parametrised by
the validity check (the catalogue's checksum validator when present,
otherwise the regex match): a null/empty value counts toward `null_count`
and is valid iff `allow_nulls`, otherwise invalid; a non-null value is
stringified and trimmed, then checked. -/
def patEval (isValid : String → Bool) (allowNulls : Bool) :
    List Cell → PatCounts
  | [] => ⟨0, 0, 0⟩
  | c :: cs =>
    let rest := patEval isValid allowNulls cs
    if isNullOrEmpty c then
      if allowNulls then
        ⟨rest.valid_count + 1, rest.invalid_count, rest.null_count + 1⟩
      else
        ⟨rest.valid_count, rest.invalid_count + 1, rest.null_count + 1⟩
    else if isValid (strStrip (cellToStr c)) then
      ⟨rest.valid_count + 1, rest.invalid_count, rest.null_count⟩
    else
      ⟨rest.valid_count, rest.invalid_count + 1, rest.null_count⟩

/-- The Result built from the counting loop for a resolved pattern. -/
def mkPatResult (tn cn : String) (rule : MRule PatParams)
    (ptype rstr : String) (counts : PatCounts) (total : Nat) : VResult :=
  { rule_name := rule.name, table_name := tn, column_name := some cn,
    severity := rule.severity, passed := decide (counts.invalid_count = 0),
    details :=
      [("pattern_type", DVal.str ptype),
       ("regex_pattern", DVal.str rstr),
       ("valid_count", DVal.int counts.valid_count),
       ("invalid_count", DVal.int counts.invalid_count),
       ("null_count", DVal.int counts.null_count),
       ("allow_nulls", DVal.bool (rule.parameters.allow_nulls.getD true)),
       ("validity_ratio",
        DVal.rat (if total > 0 then (counts.valid_count : Rat) / (total : Rat)
                  else 1))],
    affected_rows := counts.invalid_count, total_rows := total }

/-- The single passing INFO-style Result emitted when auto-detection finds
no pattern for the column. -/
def mkNoPatternResult (tn cn : String) (rule : MRule PatParams)
    (total : Nat) : VResult :=
  { rule_name := rule.name, table_name := tn, column_name := some cn,
    severity := rule.severity, passed := true,
    details :=
      [("pattern_type", DVal.str "none"),
       ("auto_detected", DVal.bool true),
       ("column_name", DVal.str cn)],
    affected_rows := 0, total_rows := total }

/-- Resolution of a (non-auto) pattern type in `_validate_pattern`:
`"regex"` requires the `regex_pattern` parameter (`None`/empty raises), a
catalogue entry uses its checksum validator when present and its regex
otherwise, anything else raises Unsupported. -/
def patternsResolve (regexMatch : String → String → Bool) (data : List Cell)
    (tn cn : String) (rule : MRule PatParams) (ptype : String) :
    Except String VResult :=
  let allowNulls := rule.parameters.allow_nulls.getD true
  if ptype = "regex" then
    match rule.parameters.regex_pattern with
    | none =>
      Except.error "regex_pattern parameter is required for custom regex validation"
    | some rp =>
      if rp = "" then
        Except.error "regex_pattern parameter is required for custom regex validation"
      else
        Except.ok (mkPatResult tn cn rule ptype rp
          (patEval (regexMatch rp) allowNulls data) data.length)
  else
    match patternCatalog ptype with
    | some (rstr, some chk) =>
      Except.ok (mkPatResult tn cn rule ptype rstr
        (patEval chk allowNulls data) data.length)
    | some (rstr, none) =>
      Except.ok (mkPatResult tn cn rule ptype rstr
        (patEval (regexMatch rstr) allowNulls data) data.length)
    | none => Except.error ("Unsupported pattern type: " ++ ptype)

/-- Embedding of `PatternsValidator._validate_pattern`. -/
def patternsValidatePattern (regexMatch : String → String → Bool)
    (data : List Cell) (tn cn : String) (rule : MRule PatParams) :
    Except String VResult :=
  let ptype0 := rule.parameters.pattern_type.getD "auto_detect"
  if ptype0 = "auto_detect" then
    match autoDetectPattern cn with
    | none => Except.ok (mkNoPatternResult tn cn rule data.length)
    | some pt => patternsResolve regexMatch data tn cn rule pt
  else patternsResolve regexMatch data tn cn rule ptype0

/-- The failed Result `validate_column` builds when `_validate_pattern`
raises (lines 132-144 of `patterns.py`). -/
def mkPatternErrorResult (tn cn : String) (rule : MRule PatParams)
    (e : String) (total : Nat) : VResult :=
  { rule_name := rule.name, table_name := tn, column_name := some cn,
    severity := rule.severity, passed := false,
    details := [("error", DVal.str e)],
    affected_rows := 0, total_rows := total }

/-- Embedding of `PatternsValidator.validate_column`: every per-rule exception is caught
and converted into a failed Result, so the function is total. -/
def patternsValidateColumn (regexMatch : String → String → Bool)
    (data : List Cell) (tn cn : String) :
    List (MRule PatParams) → List VResult
  | [] => []
  | rule :: rest =>
    if rule.enabled = true then
      (match patternsValidatePattern regexMatch data tn cn rule with
       | Except.ok r => r
       | Except.error e => mkPatternErrorResult tn cn rule e data.length)
        :: patternsValidateColumn regexMatch data tn cn rest
    else patternsValidateColumn regexMatch data tn cn rest

/-- Embedding of `PatternsValidator.validate_table`: column-level validation applied to
every column (never raises). -/
def patternsValidateTable (regexMatch : String → String → Bool) (df : DFrame)
    (tn : String) (rules : List (MRule PatParams)) : List VResult :=
  (df.cols.map
    (fun c => patternsValidateColumn regexMatch (df.getCol c) tn c rules)).flatten

theorem patternsResolve_regex_eq (regexMatch : String → String → Bool)
    (data : List Cell) (tn cn : String) (rule : MRule PatParams) (rp : String)
    (hrp : rule.parameters.regex_pattern = some rp) :
    patternsResolve regexMatch data tn cn rule "regex" =
      if rp = "" then
        Except.error "regex_pattern parameter is required for custom regex validation"
      else
        Except.ok (mkPatResult tn cn rule "regex" rp
          (patEval (regexMatch rp) (rule.parameters.allow_nulls.getD true) data)
          data.length) := by
  unfold patternsResolve
  rw [if_pos rfl, hrp]

theorem patEval_counts (isValid : String → Bool) (allowNulls : Bool)
    (data : List Cell) :
    (patEval isValid allowNulls data).null_count = data.countP isNullOrEmpty ∧
    (patEval isValid allowNulls data).invalid_count =
      (if allowNulls then 0 else data.countP isNullOrEmpty) +
      (data.filter (fun c => !isNullOrEmpty c)).countP
        (fun c => !isValid (strStrip (cellToStr c))) ∧
    (patEval isValid allowNulls data).valid_count +
      (patEval isValid allowNulls data).invalid_count = data.length := by
  induction data with
  | nil =>
    refine ⟨rfl, ?_, rfl⟩
    cases allowNulls <;> rfl
  | cons c cs ih =>
    obtain ⟨ih1, ih2, ih3⟩ := ih
    cases allowNulls <;>
      by_cases hc : isNullOrEmpty c = true <;>
      by_cases hv : isValid (strStrip (cellToStr c)) = true <;>
      simp_all [patEval, List.countP_cons, List.filter_cons] <;>
      omega

/-- Concrete patterns rule: `cpf` pattern with `allow_nulls=False`. -/
def c6Rule : MRule PatParams :=
  { name := "cpf_no_nulls", severity := Severity.ERROR, enabled := true,
    parameters :=
      { pattern_type := some "cpf", allow_nulls := some false,
        regex_pattern := none } }

/-- C6 counterexample: with `allow_nulls=false` a null value IS counted in
`invalid_count` (patterns.py lines 208-213): on the one-null column the
cpf rule yields `invalid_count = 1 = affected_rows` and the Result fails
with zero regex/checksum mismatches, refuting the claim that nulls are
never counted in `invalid_count` regardless of `allow_nulls`. -/
theorem patterns_null_in_invalid_count_counterexample :
    patEval validateCpf false [Cell.null] = ⟨0, 1, 1⟩ ∧
    patternsValidatePattern (fun _ _ => false) [Cell.null] "clients" "cpf"
      c6Rule =
      Except.ok (mkPatResult "clients" "cpf" c6Rule "cpf" cpfRegexStr
        ⟨0, 1, 1⟩ 1) ∧
    (mkPatResult "clients" "cpf" c6Rule "cpf" cpfRegexStr
      ⟨0, 1, 1⟩ 1).affected_rows = 1 ∧
    (mkPatResult "clients" "cpf" c6Rule "cpf" cpfRegexStr
      ⟨0, 1, 1⟩ 1).passed = false :=
  ⟨rfl, rfl, rfl, rfl⟩

/-- C6 (amended): for every PatternsValidator rule and column, each null or
empty value counts toward `null_count` and is treated as valid when
`allow_nulls` is true but counted into `invalid_count` otherwise;
`invalid_count` equals the number of disallowed nulls plus the number of
non-null stringified-and-trimmed values failing the pattern check; the
Result's `affected_rows` equals `invalid_count` and it passes iff
`invalid_count == 0`. -/
theorem patterns_per_value_spec (isValid : String → Bool) (allowNulls : Bool)
    (data : List Cell) :
    (patEval isValid allowNulls data).null_count = data.countP isNullOrEmpty ∧
    (patEval isValid allowNulls data).invalid_count =
      (if allowNulls then 0 else data.countP isNullOrEmpty) +
      (data.filter (fun c => !isNullOrEmpty c)).countP
        (fun c => !isValid (strStrip (cellToStr c))) ∧
    (patEval isValid allowNulls data).valid_count +
      (patEval isValid allowNulls data).invalid_count = data.length ∧
    (∀ (tn cn : String) (rule : MRule PatParams) (ptype rstr : String)
        (total : Nat),
      (mkPatResult tn cn rule ptype rstr (patEval isValid allowNulls data)
        total).affected_rows =
        (patEval isValid allowNulls data).invalid_count ∧
      ((mkPatResult tn cn rule ptype rstr (patEval isValid allowNulls data)
        total).passed = true ↔
        (patEval isValid allowNulls data).invalid_count = 0)) ∧
    (∀ (regexMatch : String → String → Bool) (tn cn : String)
        (rule : MRule PatParams) (rp : String),
      rule.parameters.pattern_type = some "regex" →
      rule.parameters.regex_pattern = some rp →
      rp ≠ "" →
      rule.parameters.allow_nulls.getD true = allowNulls →
      regexMatch rp = isValid →
      patternsValidatePattern regexMatch data tn cn rule =
        Except.ok (mkPatResult tn cn rule "regex" rp
          (patEval isValid allowNulls data) data.length)) := by
  obtain ⟨h1, h2, h3⟩ := patEval_counts isValid allowNulls data
  refine ⟨h1, h2, h3, ?_, ?_⟩
  · intro tn cn rule ptype rstr total
    exact ⟨rfl, by simp [mkPatResult]⟩
  · intro regexMatch tn cn rule rp hpt hrp hne hall hmatch
    unfold patternsValidatePattern
    rw [hpt]
    simp only [Option.getD_some]
    rw [if_neg (by decide : ¬("regex" = "auto_detect"))]
    rw [patternsResolve_regex_eq regexMatch data tn cn rule rp hrp]
    rw [if_neg hne, hall, hmatch]

/-- Concrete regex-match stand-in accepting exactly the string `"x"`. -/
def c6Rm : String → String → Bool := fun _ s => decide (s = "x")

/-- Concrete custom-regex patterns rule. -/
def c6RegexRule : MRule PatParams :=
  { name := "custom_rule", severity := Severity.INFO, enabled := true,
    parameters :=
      { pattern_type := some "regex", allow_nulls := some true,
        regex_pattern := some "^x$" } }

theorem patterns_per_value_spec_witness :
    (c6RegexRule.parameters.pattern_type = some "regex" ∧
     c6RegexRule.parameters.regex_pattern = some "^x$" ∧
     ("^x$" : String) ≠ "" ∧
     c6RegexRule.parameters.allow_nulls.getD true = true) ∧
    patternsValidatePattern c6Rm [Cell.str "x", Cell.null] "t" "c"
      c6RegexRule =
      Except.ok (mkPatResult "t" "c" c6RegexRule "regex" "^x$"
        (patEval (c6Rm "^x$") true [Cell.str "x", Cell.null]) 2) :=
  ⟨⟨rfl, rfl, by decide, rfl⟩,
   (patterns_per_value_spec (c6Rm "^x$") true
     [Cell.str "x", Cell.null]).2.2.2.2 c6Rm "t" "c" c6RegexRule "^x$"
     rfl rfl (by decide) rfl rfl⟩

/-- Concrete trivial regex-match stand-in. -/
def c7Rm : String → String → Bool := fun _ _ => true

/-- Concrete custom-regex rule missing its `regex_pattern` parameter. -/
def c7Rule : MRule PatParams :=
  { name := "broken_regex_rule", severity := Severity.ERROR, enabled := true,
    parameters :=
      { pattern_type := some "regex", allow_nulls := some true,
        regex_pattern := none } }

/-- C7 counterexample: a Patterns configuration error — a missing
`regex_pattern` — raises inside `_validate_pattern`, but `validate_column`
catches it and returns one failed Result instead of propagating the
exception to the caller. -/
theorem patterns_error_not_propagated_counterexample :
    patternsValidatePattern c7Rm [Cell.str "v"] "t" "c" c7Rule =
      Except.error
        "regex_pattern parameter is required for custom regex validation" ∧
    patternsValidateColumn c7Rm [Cell.str "v"] "t" "c" [c7Rule] =
      [mkPatternErrorResult "t" "c" c7Rule
        "regex_pattern parameter is required for custom regex validation" 1] ∧
    (mkPatternErrorResult "t" "c" c7Rule
      "regex_pattern parameter is required for custom regex validation"
      1).passed = false :=
  ⟨rfl, rfl, rfl⟩

/-- C7 (amended): configuration errors raised inside the Completeness and
Duplicates validators propagate through `validate_column`/`validate_table`
to the caller as raised exceptions; the Patterns validator instead catches
each per-rule error inside `validate_column` and converts it into one
failed Result carrying the message, never raising. -/
theorem config_error_propagation_spec :
    (∀ (data : List Cell) (tn cn : String) (rule : MRule CompParams),
      rule.enabled = true →
      ¬(0 ≤ rule.parameters.threshold.getD 1 ∧
        rule.parameters.threshold.getD 1 ≤ 1) →
      ∃ e, completenessValidateColumn data tn cn [rule] = Except.error e) ∧
    (∀ (df : DFrame) (tn : String) (rule : MRule CompParams),
      rule.enabled = true →
      ¬(0 ≤ rule.parameters.threshold.getD 1 ∧
        rule.parameters.threshold.getD 1 ≤ 1) →
      df.cols ≠ [] →
      ∃ e, completenessValidateTable df tn [rule] = Except.error e) ∧
    (∀ (cfg : DupConfig) (data : List Cell) (tn cn : String)
        (rule : MRule DupParams),
      rule.enabled = true → rule.parameters.columns = none →
      rule.parameters.max_duplicates.getD 0 < 0 →
      shouldSkipColumn cfg cn = false →
      ∃ e, duplicatesValidateColumn cfg data tn cn [rule] = Except.error e) ∧
    (∀ (cfg : DupConfig) (df : DFrame) (tn : String) (rule : MRule DupParams)
        (columns : List String),
      rule.enabled = true → rule.parameters.columns = some columns →
      ¬(∀ c ∈ columns, c ∈ df.cols) →
      ∃ e, duplicatesValidateTable cfg df tn [rule] = Except.error e) ∧
    (∀ (regexMatch : String → String → Bool) (data : List Cell)
        (tn cn : String) (rule : MRule PatParams) (e : String),
      rule.enabled = true →
      patternsValidatePattern regexMatch data tn cn rule = Except.error e →
      patternsValidateColumn regexMatch data tn cn [rule] =
        [mkPatternErrorResult tn cn rule e data.length] ∧
      (mkPatternErrorResult tn cn rule e data.length).passed = false) := by
  refine ⟨?_, ?_, ?_, ?_, ?_⟩
  · intro data tn cn rule hen hbad
    exact completenessRulesLoop_error data tn cn [rule] rule
      (List.mem_cons_self rule []) hen hbad
  · intro df tn rule hen hbad hcols
    exact completenessTable_singleton_error df tn rule hen hbad hcols
  · intro cfg data tn cn rule hen hcols hmax hskip
    exact duplicatesColumn_negMax_error cfg data tn cn rule hen hcols hmax hskip
  · intro cfg df tn rule columns hen hcols hmiss
    exact duplicatesTable_missing_error cfg df tn rule columns hen hcols hmiss
  · intro regexMatch data tn cn rule e hen herr
    refine ⟨?_, rfl⟩
    simp only [patternsValidateColumn, if_pos hen, herr]

theorem config_error_propagation_spec_witness :
    (c4NegRule.enabled = true ∧
     c4NegRule.parameters.columns = none ∧
     c4NegRule.parameters.max_duplicates.getD 0 < 0 ∧
     shouldSkipColumn defaultDupConfig "cpf" = false) ∧
    (∃ e, duplicatesValidateColumn defaultDupConfig [Cell.int 1] "t" "cpf"
      [c4NegRule] = Except.error e) ∧
    patternsValidateColumn c7Rm [Cell.str "v"] "t" "c" [c7Rule] =
      [mkPatternErrorResult "t" "c" c7Rule
        "regex_pattern parameter is required for custom regex validation" 1] :=
  ⟨⟨rfl, rfl, by decide, by decide⟩,
   config_error_propagation_spec.2.2.1 defaultDupConfig [Cell.int 1] "t"
     "cpf" c4NegRule rfl rfl (by decide) (by decide),
   (config_error_propagation_spec.2.2.2.2 c7Rm [Cell.str "v"] "t" "c"
     c7Rule "regex_pattern parameter is required for custom regex validation"
     rfl rfl).1⟩

/-! ## IntegrityValidator (`validators/integrity.py`) -/

/-- Well-typed view of an integrity rule's parameters.  A scalar
`foreign_key`/`reference_column` is normalised by the code to a one-element
list, which the model adopts directly; Python falsiness of a missing or
empty value is modelled by `getD` against the empty default.  The reference
universe comes from a literal `reference_data` table (the SQL-connector
source is a blocking query producing the same shape and is not modelled);
when both sources are absent `_get_reference_data` falls off the end
returning `None` and the later `.columns` access raises `AttributeError`. -/
structure IntParams where
  foreign_key : Option (List String)
  reference_table : Option String
  reference_column : Option (List String)
  allow_nulls : Option Bool
  allow_self_reference : Option Bool
  reference_data : Option DFrame
deriving DecidableEq, Repr

/-- The two violation tags of the classification loop. -/
inductive FKViolation where
  | null_value
  | orphaned_record
deriving DecidableEq, Repr

/-- Projection of each data row to the given key columns (the foreign-key
tuples, or the reference key rows). -/
def projectKeys (df : DFrame) (cols : List String) : List (List Cell) :=
  df.rows.map (fun r => cols.map (df.cellAt r))

/-- The reference key universe: the reference table's key rows, extended
(and deduplicated) with the data's own key values when
`allow_self_reference` applies to this table. -/
def effectiveRefKeys (data : DFrame) (tableName refTable : String)
    (refCols : List String) (allowSelf : Bool) (refData : DFrame) :
    List (List Cell) :=
  let base := projectKeys refData refCols
  if allowSelf = true ∧ refTable = tableName then
    (base ++ projectKeys data refCols).dedup
  else base

/-- The classification of one foreign-key value: a null key (any component
null) is counted as null and violates only when nulls are disallowed; a
non-null key absent from the reference set is orphaned; otherwise valid. -/
def rowViolation (allowNulls : Bool) (refKeys : List (List Cell))
    (k : List Cell) : Option FKViolation :=
  if keyHasNull k then
    if allowNulls then none else some FKViolation.null_value
  else if k ∈ refKeys then none
  else some FKViolation.orphaned_record

/-- The `invalid_references` list: the violations collected by the loop, in row
order. -/
def invalidRefs (allowNulls : Bool) (refKeys fkKeys : List (List Cell)) :
    List FKViolation :=
  fkKeys.filterMap (rowViolation allowNulls refKeys)

/-- The `null_count`: rows whose foreign-key value is null. -/
def fkNullCount (fkKeys : List (List Cell)) : Nat :=
  fkKeys.countP keyHasNull

/-- The `orphaned_count`. -/
def orphanedCount (allowNulls : Bool) (refKeys fkKeys : List (List Cell)) :
    Nat :=
  (invalidRefs allowNulls refKeys fkKeys).countP
    (fun v => decide (v = FKViolation.orphaned_record))

/-- The `null_violation_count`. -/
def nullViolationCount (allowNulls : Bool)
    (refKeys fkKeys : List (List Cell)) : Nat :=
  (invalidRefs allowNulls refKeys fkKeys).countP
    (fun v => decide (v = FKViolation.null_value))

/-- The Result built by `_validate_foreign_key` once all guards pass. -/
def mkFKResult (data : DFrame) (tn : String) (rule : MRule IntParams)
    (fk refCols : List String) (refTable : String)
    (allowNulls allowSelf : Bool) (refData : DFrame) : VResult :=
  let fkKeys := projectKeys data fk
  let refKeys := effectiveRefKeys data tn refTable refCols allowSelf refData
  let invalid := invalidRefs allowNulls refKeys fkKeys
  let total := fkKeys.length
  { rule_name := rule.name, table_name := tn, column_name := none,
    severity := rule.severity, passed := decide (invalid.length = 0),
    details :=
      [("foreign_key_columns", DVal.strList fk),
       ("reference_table", DVal.str refTable),
       ("reference_columns", DVal.strList refCols),
       ("total_references", DVal.int total),
       ("valid_references", DVal.int (total - invalid.length)),
       ("invalid_references", DVal.int invalid.length),
       ("orphaned_records", DVal.int (orphanedCount allowNulls refKeys fkKeys)),
       ("null_violations",
        DVal.int (nullViolationCount allowNulls refKeys fkKeys)),
       ("null_count", DVal.int (fkNullCount fkKeys)),
       ("allow_nulls", DVal.bool allowNulls),
       ("integrity_ratio",
        DVal.rat (if total > 0 then
          ((total - invalid.length : Nat) : Rat) / (total : Rat) else 1))],
    affected_rows := invalid.length, total_rows := total }

/-- Embedding of `IntegrityValidator._validate_foreign_key`, guards in source order:
falsy parameter checks, arity check, foreign-key columns present, reference
data available (`None` raises at its first `.columns` access), reference
columns present, the self-reference extension's own column access
(`data[reference_column]` raises `KeyError` when absent), then the
classification. -/
def integrityValidateFK (data : DFrame) (tn : String)
    (rule : MRule IntParams) : Except String VResult :=
  if rule.parameters.foreign_key.getD [] = [] then
    Except.error "foreign_key parameter is required"
  else if rule.parameters.reference_table.getD "" = "" then
    Except.error "reference_table parameter is required"
  else if rule.parameters.reference_column.getD [] = [] then
    Except.error "reference_column parameter is required"
  else if (rule.parameters.foreign_key.getD []).length ≠
      (rule.parameters.reference_column.getD []).length then
    Except.error "foreign_key and reference_column must have same length"
  else if ¬ (∀ c ∈ rule.parameters.foreign_key.getD [], c ∈ data.cols) then
    Except.error "Foreign key columns not found in data"
  else if rule.parameters.reference_data = none then
    Except.error "AttributeError: NoneType object has no attribute columns"
  else if ¬ (∀ c ∈ rule.parameters.reference_column.getD [],
      c ∈ (rule.parameters.reference_data.getD ⟨[], []⟩).cols) then
    Except.error "Reference columns not found in reference data"
  else if rule.parameters.allow_self_reference.getD false = true ∧
      rule.parameters.reference_table.getD "" = tn ∧
      ¬ (∀ c ∈ rule.parameters.reference_column.getD [], c ∈ data.cols) then
    Except.error "KeyError: reference columns not found in data"
  else
    Except.ok (mkFKResult data tn rule
      (rule.parameters.foreign_key.getD [])
      (rule.parameters.reference_column.getD [])
      (rule.parameters.reference_table.getD "")
      (rule.parameters.allow_nulls.getD true)
      (rule.parameters.allow_self_reference.getD false)
      (rule.parameters.reference_data.getD ⟨[], []⟩))

/-- The failed Result `validate_table` builds when a rule's validation
raises (integrity.py lines 68-80). -/
def mkIntegrityErrorResult (tn : String) (rule : MRule IntParams) (e : String)
    (total : Nat) : VResult :=
  { rule_name := rule.name, table_name := tn, column_name := none,
    severity := rule.severity, passed := false,
    details := [("error", DVal.str e)],
    affected_rows := 0, total_rows := total }

/-- Embedding of `IntegrityValidator.validate_table` on an explicit rule list
(auto-discovery needs a connector, which is outside the modelled
configuration): each enabled rule yields exactly one Result, per-rule
failures being caught locally, and the function is total — it never
raises. -/
def integrityValidateTable (data : DFrame) (tn : String)
    (rules : List (MRule IntParams)) : List VResult :=
  (rules.filter (fun r => r.enabled)).map (fun rule =>
    match integrityValidateFK data tn rule with
    | Except.ok r => r
    | Except.error e => mkIntegrityErrorResult tn rule e data.rows.length)

/-- Embedding of `IntegrityValidator.validate_column`: always exactly one failed Result
stating that referential integrity needs table-level context. -/
def integrityValidateColumn (data : List Cell) (tn cn : String) :
    List VResult :=
  [{ rule_name := "unsupported_operation", table_name := tn,
     column_name := some cn, severity := Severity.ERROR, passed := false,
     details :=
       [("operation", DVal.str "column_validation"),
        ("supported", DVal.bool false),
        ("reason", DVal.str "Referential integrity requires table-level context")],
     affected_rows := 0, total_rows := data.length }]

theorem violation_count_split (l : List FKViolation) :
    l.countP (fun v => decide (v = FKViolation.orphaned_record)) +
      l.countP (fun v => decide (v = FKViolation.null_value)) = l.length := by
  induction l with
  | nil => rfl
  | cons v vs ih =>
    cases v <;> simp_all [List.countP_cons] <;> omega

theorem countP_filterMap_cons_none {α β : Type} (f : α → Option β)
    (p : β → Bool) (a : α) (l : List α) (h : f a = none) :
    List.countP p (List.filterMap f (a :: l)) =
      List.countP p (List.filterMap f l) := by
  rw [List.filterMap_cons, h]

theorem countP_filterMap_cons_some {α β : Type} (f : α → Option β)
    (p : β → Bool) (a : α) (l : List α) (b : β) (h : f a = some b) :
    List.countP p (List.filterMap f (a :: l)) =
      List.countP p (List.filterMap f l) + (if p b then 1 else 0) := by
  rw [List.filterMap_cons, h, List.countP_cons]

theorem nullViolationCount_eq (allowNulls : Bool)
    (refKeys fkKeys : List (List Cell)) :
    nullViolationCount allowNulls refKeys fkKeys =
      (if allowNulls then 0 else fkNullCount fkKeys) := by
  induction fkKeys with
  | nil => cases allowNulls <;> rfl
  | cons k ks ih =>
    unfold nullViolationCount invalidRefs fkNullCount at ih ⊢
    by_cases hk : keyHasNull k = true
    · by_cases hA : allowNulls = true
      · have hv : rowViolation allowNulls refKeys k = none := by
          unfold rowViolation
          rw [if_pos hk, if_pos hA]
        rw [countP_filterMap_cons_none _ _ _ _ hv, ih, hA]
        simp
      · have hAf : allowNulls = false := by
          cases hb : allowNulls
          · rfl
          · exact absurd hb hA
        have hv : rowViolation allowNulls refKeys k =
            some FKViolation.null_value := by
          unfold rowViolation
          rw [if_pos hk, if_neg hA]
        rw [countP_filterMap_cons_some _ _ _ _ _ hv, ih, hAf]
        simp [List.countP_cons, hk]
    · have hkf : keyHasNull k = false := by
        cases hb : keyHasNull k
        · rfl
        · exact absurd hb hk
      by_cases hm : k ∈ refKeys
      · have hv : rowViolation allowNulls refKeys k = none := by
          unfold rowViolation
          rw [if_neg hk, if_pos hm]
        rw [countP_filterMap_cons_none _ _ _ _ hv, ih]
        cases allowNulls
        · simp [List.countP_cons, hkf]
        · simp
      · have hv : rowViolation allowNulls refKeys k =
            some FKViolation.orphaned_record := by
          unfold rowViolation
          rw [if_neg hk, if_neg hm]
        rw [countP_filterMap_cons_some _ _ _ _ _ hv, ih]
        cases allowNulls
        · simp [List.countP_cons, hkf]
        · simp

theorem integrityValidateFK_ok (data : DFrame) (tn : String)
    (rule : MRule IntParams) (refData : DFrame)
    (h1 : rule.parameters.foreign_key.getD [] ≠ [])
    (h2 : rule.parameters.reference_table.getD "" ≠ "")
    (h3 : rule.parameters.reference_column.getD [] ≠ [])
    (h4 : (rule.parameters.foreign_key.getD []).length =
          (rule.parameters.reference_column.getD []).length)
    (h5 : ∀ c ∈ rule.parameters.foreign_key.getD [], c ∈ data.cols)
    (h6 : rule.parameters.reference_data = some refData)
    (h7 : ∀ c ∈ rule.parameters.reference_column.getD [], c ∈ refData.cols)
    (h8 : ¬ (rule.parameters.allow_self_reference.getD false = true ∧
             rule.parameters.reference_table.getD "" = tn ∧
             ¬ (∀ c ∈ rule.parameters.reference_column.getD [], c ∈ data.cols))) :
    integrityValidateFK data tn rule =
      Except.ok (mkFKResult data tn rule
        (rule.parameters.foreign_key.getD [])
        (rule.parameters.reference_column.getD [])
        (rule.parameters.reference_table.getD "")
        (rule.parameters.allow_nulls.getD true)
        (rule.parameters.allow_self_reference.getD false) refData) := by
  unfold integrityValidateFK
  rw [h6]
  simp only [Option.getD_some]
  rw [if_neg h1, if_neg h2, if_neg h3, if_neg (not_not_intro h4),
    if_neg (not_not_intro h5), if_neg (Option.some_ne_none refData),
    if_neg (not_not_intro h7), if_neg h8]

/-- C2: each foreign-key value is classified as: null (any component null)
— valid iff `allow_nulls`, else a null violation; non-null and absent from
the reference key set — orphaned; otherwise valid.  `affected_rows` equals
the number of all invalid rows, which is orphaned plus disallowed-null
violations combined (the latter being the null count when `allow_nulls` is
false and zero otherwise), and the Result passes iff that number is zero;
with `allow_self_reference=true` and `reference_table = table_name`, the
table's own non-null key values are always accepted as valid references. -/
theorem integrity_fk_classification_spec (allowNulls : Bool)
    (refKeys fkKeys : List (List Cell)) :
    (∀ k, keyHasNull k = true →
      rowViolation allowNulls refKeys k =
        (if allowNulls then none else some FKViolation.null_value)) ∧
    (∀ k, keyHasNull k = false → k ∉ refKeys →
      rowViolation allowNulls refKeys k = some FKViolation.orphaned_record) ∧
    (∀ k, keyHasNull k = false → k ∈ refKeys →
      rowViolation allowNulls refKeys k = none) ∧
    (invalidRefs allowNulls refKeys fkKeys).length =
      orphanedCount allowNulls refKeys fkKeys +
      nullViolationCount allowNulls refKeys fkKeys ∧
    nullViolationCount allowNulls refKeys fkKeys =
      (if allowNulls then 0 else fkNullCount fkKeys) ∧
    (∀ (data : DFrame) (tn : String) (rule : MRule IntParams)
        (fk refCols : List String) (refTable : String) (allowSelf : Bool)
        (refData : DFrame),
      (mkFKResult data tn rule fk refCols refTable allowNulls allowSelf
        refData).affected_rows =
        (invalidRefs allowNulls
          (effectiveRefKeys data tn refTable refCols allowSelf refData)
          (projectKeys data fk)).length ∧
      (mkFKResult data tn rule fk refCols refTable allowNulls allowSelf
        refData).total_rows = (projectKeys data fk).length ∧
      ((mkFKResult data tn rule fk refCols refTable allowNulls allowSelf
        refData).passed = true ↔
        (invalidRefs allowNulls
          (effectiveRefKeys data tn refTable refCols allowSelf refData)
          (projectKeys data fk)).length = 0)) ∧
    (∀ (data : DFrame) (tn : String) (refCols : List String)
        (refData : DFrame) (k : List Cell),
      keyHasNull k = false →
      k ∈ projectKeys data refCols →
      rowViolation allowNulls
        (effectiveRefKeys data tn tn refCols true refData) k = none) := by
  refine ⟨?_, ?_, ?_, ?_, nullViolationCount_eq allowNulls refKeys fkKeys,
    ?_, ?_⟩
  · intro k hk
    unfold rowViolation
    rw [if_pos hk]
  · intro k hk hmem
    unfold rowViolation
    rw [if_neg ((Bool.not_eq_true _).mpr hk), if_neg hmem]
  · intro k hk hmem
    unfold rowViolation
    rw [if_neg ((Bool.not_eq_true _).mpr hk), if_pos hmem]
  · rw [← violation_count_split (invalidRefs allowNulls refKeys fkKeys)]
    rfl
  · intro data tn rule fk refCols refTable allowSelf refData
    refine ⟨rfl, rfl, ?_⟩
    simp [mkFKResult]
  · intro data tn refCols refData k hk hmem
    unfold rowViolation
    rw [if_neg ((Bool.not_eq_true _).mpr hk)]
    rw [if_pos ?_]
    unfold effectiveRefKeys
    rw [if_pos ⟨rfl, rfl⟩]
    exact List.mem_dedup.mpr (List.mem_append_right _ hmem)

/-- Concrete dataset of the end-to-end orphan scenario:
`cliente_uid = ["client_1","client_2","client_3"]`. -/
def c2Data : DFrame :=
  ⟨["cliente_uid"],
   [[Cell.str "client_1"], [Cell.str "client_2"], [Cell.str "client_3"]]⟩

/-- Concrete reference table: `uid = ["client_1","client_2"]`. -/
def c2RefData : DFrame :=
  ⟨["uid"], [[Cell.str "client_1"], [Cell.str "client_2"]]⟩

/-- Concrete foreign-key rule for the orphan scenario. -/
def c2Rule : MRule IntParams :=
  { name := "fk_cliente", severity := Severity.ERROR, enabled := true,
    parameters :=
      { foreign_key := some ["cliente_uid"],
        reference_table := some "clients",
        reference_column := some ["uid"],
        allow_nulls := some true,
        allow_self_reference := none,
        reference_data := some c2RefData } }

theorem integrity_fk_classification_spec_witness :
    (keyHasNull [Cell.str "client_3"] = false ∧
     [Cell.str "client_3"] ∉ projectKeys c2RefData ["uid"]) ∧
    rowViolation true (projectKeys c2RefData ["uid"]) [Cell.str "client_3"] =
      some FKViolation.orphaned_record :=
  ⟨⟨rfl, by decide⟩,
   (integrity_fk_classification_spec true (projectKeys c2RefData ["uid"])
     (projectKeys c2Data ["cliente_uid"])).2.1 [Cell.str "client_3"] rfl
     (by decide)⟩

/-- C9: `validate_table` never propagates a per-rule failure: it returns
exactly one Result per enabled rule, and a rule whose validation raises
(such as a missing `foreign_key` parameter or a missing reference-data
source) contributes a single failed Result carrying the message while the
other rules' Results are unaffected; `validate_column` never raises and
always returns exactly one failed Result explaining that referential
integrity requires table-level context. -/
theorem integrity_error_isolation_spec (data : DFrame) (tn : String) :
    (∀ rules : List (MRule IntParams),
      (integrityValidateTable data tn rules).length =
        (rules.filter (fun r => r.enabled)).length) ∧
    (∀ (rules : List (MRule IntParams)) (rule : MRule IntParams),
      rule ∈ rules → rule.enabled = true →
      ∀ e, integrityValidateFK data tn rule = Except.error e →
        mkIntegrityErrorResult tn rule e data.rows.length ∈
          integrityValidateTable data tn rules ∧
        (mkIntegrityErrorResult tn rule e data.rows.length).passed = false) ∧
    (∀ rule : MRule IntParams, rule.parameters.foreign_key.getD [] = [] →
      ∃ e, integrityValidateFK data tn rule = Except.error e) ∧
    (∀ rule : MRule IntParams,
      rule.parameters.foreign_key.getD [] ≠ [] →
      rule.parameters.reference_table.getD "" ≠ "" →
      rule.parameters.reference_column.getD [] ≠ [] →
      (rule.parameters.foreign_key.getD []).length =
        (rule.parameters.reference_column.getD []).length →
      (∀ c ∈ rule.parameters.foreign_key.getD [], c ∈ data.cols) →
      rule.parameters.reference_data = none →
      ∃ e, integrityValidateFK data tn rule = Except.error e) ∧
    (∀ (cdata : List Cell) (cn : String),
      (integrityValidateColumn cdata tn cn).length = 1 ∧
      ∀ r ∈ integrityValidateColumn cdata tn cn,
        r.passed = false ∧ r.rule_name = "unsupported_operation" ∧
        r.column_name = some cn) := by
  refine ⟨?_, ?_, ?_, ?_, ?_⟩
  · intro rules
    unfold integrityValidateTable
    rw [List.length_map]
  · intro rules rule hmem hen e herr
    constructor
    · have hmf : rule ∈ rules.filter (fun r => r.enabled) :=
        List.mem_filter.mpr ⟨hmem, hen⟩
      have hfun : (match integrityValidateFK data tn rule with
          | Except.ok r => r
          | Except.error e => mkIntegrityErrorResult tn rule e data.rows.length) =
          mkIntegrityErrorResult tn rule e data.rows.length := by
        rw [herr]
      unfold integrityValidateTable
      rw [← hfun]
      exact List.mem_map_of_mem _ hmf
    · rfl
  · intro rule hempty
    unfold integrityValidateFK
    rw [if_pos hempty]
    exact ⟨_, rfl⟩
  · intro rule h1 h2 h3 h4 h5 h6
    unfold integrityValidateFK
    rw [if_neg h1, if_neg h2, if_neg h3, if_neg (not_not_intro h4),
      if_neg (not_not_intro h5), if_pos h6]
    exact ⟨_, rfl⟩
  · intro cdata cn
    exact ⟨rfl, by
      intro r hr
      rcases List.mem_singleton.mp hr with rfl
      exact ⟨rfl, rfl, rfl⟩⟩

/-- Concrete integrity rule missing its `foreign_key` parameter. -/
def c9Rule : MRule IntParams :=
  { name := "broken_fk_rule", severity := Severity.ERROR, enabled := true,
    parameters :=
      { foreign_key := none, reference_table := some "clients",
        reference_column := some ["uid"], allow_nulls := none,
        allow_self_reference := none, reference_data := some c2RefData } }

theorem integrity_error_isolation_spec_witness :
    c9Rule.parameters.foreign_key.getD [] = [] ∧
    (∃ e, integrityValidateFK c2Data "orders" c9Rule = Except.error e) ∧
    (integrityValidateColumn [Cell.int 1] "orders" "cliente_uid").length = 1 :=
  ⟨rfl,
   (integrity_error_isolation_spec c2Data "orders").2.2.1 c9Rule rfl,
   ((integrity_error_isolation_spec c2Data "orders").2.2.2.2
     [Cell.int 1] "cliente_uid").1⟩

/-! ## Aliasing model of the `.copy()` semantics of `get_rules` and
`get_all_validators` (`validators/base.py`) -/

/-- A heap of Python container objects of type `α`: cell addresses are
indices into `cells`.  Writing one cell leaves every other cell untouched,
and `alloc` appends a fresh cell whose address is the old length. -/
structure Store (α : Type) where
  cells : List α
deriving Repr

/-- Dereference address `i`. -/
def Store.read {α : Type} (s : Store α) (i : Nat) : Option α :=
  s.cells[i]?

/-- In-place mutation of the object at address `i`. -/
def Store.write {α : Type} (s : Store α) (i : Nat) (v : α) : Store α :=
  ⟨s.cells.set i v⟩

/-- Allocation of a fresh object, returning its address. -/
def Store.alloc {α : Type} (s : Store α) (v : α) : Store α × Nat :=
  (⟨s.cells ++ [v]⟩, s.cells.length)

/-- Embedding of `DataQualityValidator.add_rule`: `self._rules.append(rule)` — an
in-place mutation of the validator's own list. -/
def addRule {ρ : Type} (s : Store (List ρ)) (selfAddr : Nat) (r : ρ) :
    Store (List ρ) :=
  s.write selfAddr (((s.read selfAddr).getD []) ++ [r])

/-- Embedding of `DataQualityValidator.get_rules`: `return self._rules.copy()` — a fresh
list object holding the same rules, at a fresh address. -/
def getRules {ρ : Type} (s : Store (List ρ)) (selfAddr : Nat) :
    Store (List ρ) × Nat :=
  s.alloc ((s.read selfAddr).getD [])

/-- Embedding of `ValidationEngine.register_validator`: in-place update of
`self._validators` (overwrite on name collision, insert otherwise). -/
def registerValidatorAt (s : Store (List (String × MValidator)))
    (selfAddr : Nat) (v : MValidator) : Store (List (String × MValidator)) :=
  s.write selfAddr (registerValidator ((s.read selfAddr).getD []) v)

/-- Embedding of `ValidationEngine.get_all_validators`:
`return self._validators.copy()` — a fresh mapping object with the same
entries, at a fresh address. -/
def getAllValidators (s : Store (List (String × MValidator)))
    (selfAddr : Nat) : Store (List (String × MValidator)) × Nat :=
  s.alloc ((s.read selfAddr).getD [])

/-- C10: `get_rules` and `get_all_validators` return copies: the returned
object lives at a fresh address distinct from the owner's, the copy leaves
the owner's cell unchanged, and any mutation of the returned copy still
leaves the owner's cell — hence the behaviour of subsequent validate calls,
which read only that cell — unchanged; `add_rule` and `register_validator`
are the operations that do write the owner's cell (append, and dict upsert
respectively). -/
theorem copy_semantics_spec :
    (∀ (ρ : Type) (s : Store (List ρ)) (addr : Nat), addr < s.cells.length →
      (getRules s addr).2 ≠ addr ∧
      (getRules s addr).1.read addr = s.read addr ∧
      (∀ v, ((getRules s addr).1.write (getRules s addr).2 v).read addr =
        s.read addr) ∧
      (∀ r, (addRule s addr r).read addr =
        some (((s.read addr).getD []) ++ [r]))) ∧
    (∀ (s : Store (List (String × MValidator))) (addr : Nat),
      addr < s.cells.length →
      (getAllValidators s addr).2 ≠ addr ∧
      (getAllValidators s addr).1.read addr = s.read addr ∧
      (∀ l, ((getAllValidators s addr).1.write (getAllValidators s addr).2
        l).read addr = s.read addr) ∧
      (∀ v, (registerValidatorAt s addr v).read addr =
        some (registerValidator ((s.read addr).getD []) v))) := by
  constructor
  · intro ρ s addr h
    refine ⟨Ne.symm (Nat.ne_of_lt h), ?_, ?_, ?_⟩
    · show (s.cells ++ [_])[addr]? = _
      rw [List.getElem?_append_left h]
      rfl
    · intro v
      show ((s.cells ++ [_]).set s.cells.length v)[addr]? = _
      rw [List.getElem?_set_ne (Nat.ne_of_gt h), List.getElem?_append_left h]
      rfl
    · intro r
      show (s.cells.set addr _)[addr]? = _
      rw [List.getElem?_set_eq_of_lt _ h]
  · intro s addr h
    refine ⟨Ne.symm (Nat.ne_of_lt h), ?_, ?_, ?_⟩
    · show (s.cells ++ [_])[addr]? = _
      rw [List.getElem?_append_left h]
      rfl
    · intro l
      show ((s.cells ++ [_]).set s.cells.length l)[addr]? = _
      rw [List.getElem?_set_ne (Nat.ne_of_gt h), List.getElem?_append_left h]
      rfl
    · intro v
      show (s.cells.set addr _)[addr]? = _
      rw [List.getElem?_set_eq_of_lt _ h]

/-- Concrete one-validator heap for the copy-semantics instantiation. -/
def c10Store : Store (List (MRule CompParams)) :=
  ⟨[[c5Rule]]⟩

theorem copy_semantics_spec_witness :
    (0 < c10Store.cells.length) ∧
    ((getRules c10Store 0).2 ≠ 0 ∧
     (getRules c10Store 0).1.read 0 = c10Store.read 0 ∧
     (∀ v, ((getRules c10Store 0).1.write (getRules c10Store 0).2 v).read 0 =
       c10Store.read 0) ∧
     (∀ r, (addRule c10Store 0 r).read 0 =
       some (((c10Store.read 0).getD []) ++ [r]))) :=
  ⟨by decide,
   copy_semantics_spec.1 (MRule CompParams) c10Store 0 (by decide)⟩

end DataQuality
